import Mathlib

/-!
Verification development for `docker-backup.py`, a single-file Python program
that stops a fixed list of Docker Compose stacks, archives each stack directory
with `tar`, restarts the successfully stopped stacks, prunes old archives, and
emails a report.

The Python program is shallowly embedded: its global mutable run state
(`LOG_MESSAGES`, `BACKUP_SUCCESSFUL`, `NEW_ARCHIVES`, `DELETED_FILES`) becomes
an explicit `RunState` value threaded through each function, and all external
effects (directory checks, subprocess results, `du`, `os.path.getsize`, the
`find` scan, `os.remove`, `hostname`, SMTP delivery, wall-clock timestamps)
are supplied by an `Env` record of oracles.  Each Lean definition mirrors the
Python function of the same name; line references are to `src/docker-backup.py`.

Modelling conventions:
* Python strings are Lean `String`s; `str.split()` with no argument is
  `pySplit` (split on whitespace runs, empty segments dropped), and
  `str.split(c)` for the single-character separators the program uses is
  `splitOnChar`.
* Timestamps inside log lines are dropped: a log entry is its level plus its
  message.  The one raw header string appended directly to `LOG_MESSAGES` in
  `main` is a distinct `LogEntry.header` constructor.
* The sequence of argument vectors handed to `subprocess.run` via
  `run_command` is recorded in `RunState.cmds`; this is a ghost observation of
  the CommandRunner collaborator and changes no behaviour.
* The `find`-based retention scan is modelled by filtering `Env.backupFiles`
  (the recursive enumeration of regular files under the backup root, with
  their ages in seconds) by `find`'s own predicate: basename matches `*.tar`
  and `-mtime +N`, i.e. whole elapsed days (age divided by 86400, truncated)
  strictly greater than `N`.
-/

/-- One entry of the global `LOG_MESSAGES` list: either the raw phase header
appended directly in `main` (line 345) or a leveled entry produced by `log`
(lines 40-48). -/
inductive LogEntry where
  | header (text : String)
  | entry (level : String) (message : String)
deriving DecidableEq, Repr

/-- Whether a log entry was recorded at ERROR level. -/
def isError : LogEntry → Bool
  | LogEntry.header _ => false
  | LogEntry.entry level _ => decide (level = "ERROR")

/-- One element of `NEW_ARCHIVES` (line 35): full path, human-readable size,
size in bytes. -/
structure Archive where
  path : String
  sizeHuman : String
  sizeBytes : Nat
deriving DecidableEq, Repr

/-- The parsed `df` row returned by `get_disk_usage` (lines 183-189). -/
structure DiskInfo where
  total : String
  used : String
  free : String
  percent : String
  mount : String
deriving DecidableEq, Repr

/-- The program's global mutable state (lines 33-36), plus the ghost trace
`cmds` of every argument vector passed to `run_command`. -/
structure RunState where
  logMessages : List LogEntry
  backupSuccessful : Bool
  newArchives : List Archive
  deletedFiles : List String
  cmds : List (List String)
deriving DecidableEq, Repr

/-- A regular file under the backup root as seen by the retention scan:
its absolute path and its age (now minus mtime) in seconds. -/
structure FsFile where
  path : String
  ageSeconds : Nat
deriving DecidableEq, Repr

/-- The environment of external oracles consumed by the program. -/
structure Env where
  /-- `os.path.isdir` -/
  isDir : String → Bool
  /-- `os.path.exists` -/
  fileExists : String → Bool
  /-- Outcome of `subprocess.run(argv, check=True)` inside `run_command`:
  `some stdout` on success, `none` on `CalledProcessError`/`FileNotFoundError`. -/
  cmdResult : List String → Option String
  /-- Output of `du -h <file>` (line 123); `none` if the call raises. -/
  duOutput : String → Option String
  /-- `os.path.getsize <file>` (line 124); `none` if the call raises. -/
  getSize : String → Option Nat
  /-- The regular files under `BACKUP_DIR`, as enumerated by `find`. -/
  backupFiles : List FsFile
  /-- Whether the `find` command itself succeeds (line 150). -/
  findOk : Bool
  /-- Whether `os.remove` succeeds for a given path (line 157). -/
  removeOk : String → Bool
  /-- Output of `hostname` (line 217); `none` if the call raises. -/
  hostname : Option String
  /-- `datetime.now().strftime(%Y-%m-%d)` (line 221). -/
  date : String
  /-- `datetime.now().strftime(%Y%m%d_%H%M%S)` (line 89). -/
  timestamp : String
  /-- Whether SMTP delivery succeeds (lines 327-330). -/
  smtpOk : Bool

/- ### Configuration constants (lines 10-30) -/

def STACKS : List String := ["stack1", "stack2", "stack3", "stack4", "stack5"]

def BASE_DIR : String := "/opt/stacks"

def EXTRA_STACK_PATH : String := "/opt/dockge"

def BACKUP_DIR : String := "/var/backups/docker"

def DAILY_RETENTION_DAYS : Nat := 28

def SUBJECT_TAG : String := "[DOCKER-BACKUP]"

def TARGET_EXT : String := "tar"

def TAR_COMMAND : String := "tar -c -f"

/- ### String utilities mirroring the Python string operations -/

/-- Split a character list at every occurrence of `c`; the accumulator holds
the current segment reversed.  Mirrors Python `str.split(sep)` at the level of
segments (every separator produces a boundary, empty segments included). -/
def splitAux (c : Char) : List Char → List Char → List (List Char)
  | [], acc => [acc.reverse]
  | x :: xs, acc =>
    if x = c then acc.reverse :: splitAux c xs [] else splitAux c xs (x :: acc)

/-- Python `s.split(c)` for a single-character separator `c`. -/
def splitOnChar (c : Char) (s : String) : List String :=
  (splitAux c s.data []).map (fun l => ⟨l⟩)

/-- The whitespace characters relevant to Python `str.split()`/`str.strip()`
in this program's strings. -/
def isWs (c : Char) : Bool :=
  c = ' ' || c = '\n' || c = '\t' || c = '\r'

/-- Split a character list at every whitespace character (the splitting of
Python `str.split()` with no argument, before empty segments are dropped). -/
def splitWsAux : List Char → List Char → List (List Char)
  | [], acc => [acc.reverse]
  | x :: xs, acc =>
    if isWs x then acc.reverse :: splitWsAux xs [] else splitWsAux xs (x :: acc)

/-- Python `s.split()` (no argument): split on whitespace runs, dropping
empty segments. -/
def pySplit (s : String) : List String :=
  ((splitWsAux s.data []).filter (fun l => !l.isEmpty)).map (fun l => ⟨l⟩)

/-- No character of `s` is whitespace — the condition under which a string is
one token of a `str.split()`. -/
abbrev wsFree (s : String) : Prop :=
  ∀ c ∈ s.data, isWs c = false

/-- Python `s.strip()`. -/
def pyStrip (s : String) : String :=
  ⟨((s.data.dropWhile isWs).reverse.dropWhile isWs).reverse⟩

/-- Join a list of character lists with a single separator character. -/
def joinSep (c : Char) : List (List Char) → List Char
  | [] => []
  | [x] => x
  | x :: y :: xs => x ++ c :: joinSep c (y :: xs)

/-- Python `sep.join(parts)`. -/
def strJoin (sep : String) : List String → String
  | [] => ""
  | [x] => x
  | x :: y :: xs => x ++ sep ++ strJoin sep (y :: xs)

/-- `os.path.basename`: the component after the last slash. -/
def basename (p : String) : String :=
  ⟨(splitAux '/' p.data []).getLastD []⟩

/-- `os.path.dirname`: everything before the last slash. -/
def dirname (p : String) : String :=
  ⟨joinSep '/' (splitAux '/' p.data []).dropLast⟩

/-- Right-align in a field of width `w`, Python `f-string` `:>w`. -/
def padLeft (s : String) (w : Nat) : String :=
  ⟨List.replicate (w - s.data.length) ' ' ++ s.data⟩

/-- Left-align in a field of width `w`, Python `f-string` `:<w`. -/
def padRight (s : String) (w : Nat) : String :=
  ⟨s.data ++ List.replicate (w - s.data.length) ' '⟩

/- ### log and run_command (lines 40-62) -/

/-- `log(message, level)` (lines 40-48): append a leveled entry and flip
`BACKUP_SUCCESSFUL` to `False` when the level is `"ERROR"`. -/
def log (st : RunState) (message : String) (level : String := "INFO") : RunState :=
  { st with
    logMessages := st.logMessages ++ [LogEntry.entry level message]
    backupSuccessful := if level = "ERROR" then false else st.backupSuccessful }

/-- `run_command(command, description)` (lines 50-62): log the start, invoke
the subprocess, and return the stripped stdout on success or `none` on
failure (in which case an ERROR entry is logged).  The attempted argument
vector is recorded in the ghost trace `cmds`.  The source's two failure
branches (`CalledProcessError` with the stderr excerpt in the message,
`FileNotFoundError` with a fixed message) both log at ERROR level and both
return `None`; they are modelled as one branch whose dynamic message text is
abridged to the fixed `"Failed: "` part. -/
def run_command (env : Env) (st : RunState) (command : List String)
    (description : String) : RunState × Option String :=
  let st := log st ("Starting command: " ++ description ++ " (" ++
    strJoin " " command ++ ")")
  let st := { st with cmds := st.cmds ++ [command] }
  match env.cmdResult command with
  | some out =>
    (log st ("Successfully finished: " ++ description), some (pyStrip out))
  | none =>
    (log st ("Failed: " ++ description) "ERROR", none)

/- ### compose_action (lines 64-80) -/

/-- Compose-file discovery (line 73): `compose.yaml` if it exists, else
`docker-compose.yml`. -/
def composeFile (env : Env) (stack_path : String) : String :=
  if env.fileExists (stack_path ++ "/compose.yaml") then "compose.yaml"
  else "docker-compose.yml"

/-- The argument vector built by `compose_action` (lines 75-77). -/
def composeCmd (env : Env) (stack_path : String) (action : String) : List String :=
  ["docker", "compose", "-f", stack_path ++ "/" ++ composeFile env stack_path,
    action] ++ (if action = "up" then ["-d"] else [])

/-- `compose_action(stack_path, action)` (lines 64-80): vacuous success with a
WARNING when the directory is absent; otherwise run `docker compose ... down`
or `... up -d` and report whether the command succeeded. -/
def compose_action (env : Env) (st : RunState) (stack_path : String)
    (action : String) : RunState × Bool :=
  if env.isDir stack_path then
    let action_text := if action = "down" then "Stopping" else "Starting"
    let st := log st (action_text ++ " stack in " ++ stack_path ++ "...")
    let cmd := composeCmd env stack_path action
    let r := run_command env st cmd (action_text ++ " " ++ basename stack_path)
    (r.1, r.2.isSome)
  else
    (log st ("Stack directory not found at " ++ stack_path ++ ". Skipping " ++
      action ++ ".") "WARNING", true)

example : basename "/opt/dockge" = "dockge" := by decide
example : dirname "/opt/dockge" = "/opt" := by decide
example : pySplit "tar -c -f /tmp/a.tar -C /opt x" =
    ["tar", "-c", "-f", "/tmp/a.tar", "-C", "/opt", "x"] := by decide
example : pyStrip "  ab c\n" = "ab c" := by decide

/- ### create_archive (lines 82-131) -/

/-- The archive name chosen in lines 91-96: the extra stack uses its own
basename, every other stack its configured name. -/
def archiveName (stack_name stack_path : String) : String :=
  if stack_path = EXTRA_STACK_PATH then basename stack_path else stack_name

/-- The directory `tar -C` is pointed at (lines 91-96). -/
def archiveRootDir (base_dir stack_path : String) : String :=
  if stack_path = EXTRA_STACK_PATH then dirname stack_path else base_dir

/-- The destination file `BACKUP_DIR/<name>/<name>_<timestamp>.tar`
(lines 98-101). -/
def targetFilename (env : Env) (archive_name : String) : String :=
  BACKUP_DIR ++ "/" ++ archive_name ++ "/" ++ archive_name ++ "_" ++
    env.timestamp ++ "." ++ TARGET_EXT

/-- Tail of `create_archive` after the `-C` sanity check (lines 112-131): run
the tar command; on success measure the file with `du -h` and
`os.path.getsize` (any measurement failure yields `"N/A"` and `0`) and append
the record to `NEW_ARCHIVES`; on failure append nothing.  In the source the
stored path is `'/' + os.path.relpath(target, '/')`, which is the absolute
target path itself. -/
def archiveRun (env : Env) (st : RunState) (command_list : List String)
    (archive_name target_filename : String) : RunState × Bool :=
  let r := run_command env st command_list ("Archiving " ++ archive_name)
  match r.2 with
  | some _ =>
    let sizes : String × Nat :=
      match env.duOutput target_filename, env.getSize target_filename with
      | some raw, some b =>
        match pySplit raw with
        | h :: _ => (h, b)
        | [] => ("N/A", 0)
      | _, _ => ("N/A", 0)
    ({ r.1 with newArchives :=
        r.1.newArchives ++ [⟨target_filename, sizes.1, sizes.2⟩] }, true)
  | none => (r.1, false)

/-- `create_archive(stack_name, base_dir, stack_path)` (lines 82-131): build
the tar command line as a single string, split it on whitespace, perform the
source's `-C` index check, then run it via `archiveRun`. -/
def create_archive (env : Env) (st : RunState) (stack_name base_dir stack_path :
    String) : RunState × Bool :=
  let archive_name := archiveName stack_name stack_path
  let archive_root_dir := archiveRootDir base_dir stack_path
  let target_filename := targetFilename env archive_name
  let st := log st ("Creating uncompressed archive for '" ++ archive_name ++
    "' at " ++ target_filename ++ "...")
  let cmd := TAR_COMMAND ++ " " ++ target_filename ++ " -C " ++
    archive_root_dir ++ " " ++ archive_name
  let command_list := pySplit cmd
  if "-C" ∈ command_list then
    if command_list.indexOf "-C" + 1 < command_list.length then
      archiveRun env st command_list archive_name target_filename
    else
      (log st "Internal Error: -C flag not followed by a directory." "ERROR",
        false)
  else
    archiveRun env st command_list archive_name target_filename

/- ### cleanup_local_backups (lines 134-171) -/

/-- `find BACKUP_DIR -type f -name *.tar -mtime +28` membership: the file name
ends in `.tar` and the file's whole elapsed days (age in seconds divided by
86400, truncated, which is how `find -mtime` counts) strictly exceed
`DAILY_RETENTION_DAYS`. -/
def matchesRetention (f : FsFile) : Bool :=
  ("." ++ TARGET_EXT).data.isSuffixOf f.path.data &&
    decide (DAILY_RETENTION_DAYS < f.ageSeconds / 86400)

/-- `cleanup_local_backups()` (lines 134-171): list the matching files, delete
each one, recording successes in `DELETED_FILES` (the source stores
`'/' + relpath(path, '/')`, i.e. the path itself) and logging an ERROR for
each failed deletion; a failure of the `find` scan itself logs one ERROR and
deletes nothing.  Dynamic exception text in the ERROR messages is abridged;
the source's catch-all `except Exception` (line 170), reachable only through
the same failures already modelled, is folded into the `findOk` branch. -/
def cleanup_local_backups (env : Env) (st : RunState) : RunState :=
  let st := log st ("Starting local backup cleanup: deleting files older than "
    ++ toString DAILY_RETENTION_DAYS ++ " days.")
  if env.findOk then
    let files_to_delete := (env.backupFiles.filter matchesRetention).map
      (fun f => f.path)
    let r := files_to_delete.foldl (fun (acc : RunState × Nat) file_path =>
      if env.removeOk file_path then
        let st := { acc.1 with deletedFiles := acc.1.deletedFiles ++ [file_path] }
        (log st ("Deleted old backup: " ++ file_path), acc.2 + 1)
      else
        (log acc.1 ("Error deleting file " ++ file_path) "ERROR", acc.2))
      (st, 0)
    log r.1 ("Local cleanup finished. Total files deleted: " ++ toString r.2)
  else
    log st "Error during find command execution" "ERROR"

/- ### get_disk_usage (lines 174-194) -/

/-- The `df` argument vector (line 177). -/
def dfCmd : List String :=
  ["df", "-h", "--output=size,used,avail,pcent,target", BACKUP_DIR]

/-- Parsing of the `df` output (lines 179-189): second line, whitespace-split,
at least five fields. -/
def parseDf (out : String) : Option DiskInfo :=
  let lines := splitOnChar '\n' out
  if 1 < lines.length then
    let data := pySplit (lines.getD 1 "")
    if 5 ≤ data.length then
      some ⟨data.getD 0 "", data.getD 1 "", data.getD 2 "", data.getD 3 "",
        data.getD 4 ""⟩
    else none
  else none

/-- `get_disk_usage()` (lines 174-194): run `df` through `run_command` (whose
failure logs an ERROR), parse its output, and log a WARNING returning `none`
when no parse is obtained.  An empty stdout is falsy in the source and lands
in the same WARNING branch as an unparseable one. -/
def get_disk_usage (env : Env) (st : RunState) : RunState × Option DiskInfo :=
  let r := run_command env st dfCmd "Checking disk usage"
  match r.2 with
  | some out =>
    match parseDf out with
    | some info => (r.1, some info)
    | none => (log r.1 "Could not parse disk usage data." "WARNING", none)
  | none => (log r.1 "Could not parse disk usage data." "WARNING", none)

/- ### format_bytes (lines 196-208) -/

/-- The unit suffixes of `format_bytes` (line 200). -/
def sizeName : List String := ["B", "K", "M", "G", "T", "P", "E", "Z", "Y"]

/-- The `while size_bytes >= 1024 and i < len(size_name) - 1` loop of
`format_bytes` (lines 202-204), tracking only the division count `i`: after
`i` exact divisions the running value is `size / 1024 ^ i`, so the loop guard
`value >= 1024` is `1024 ^ (i+1) <= size`.  (Python divides a float by 1024,
which is exact for every size below 2 ^ 53, so the counter agrees with the
source.)  The fuel is the loop's own bound `len(size_name) - 1 = 8`. -/
def fbLoop : Nat → Nat → Nat → Nat
  | 0, _, i => i
  | fuel + 1, size, i => if 1024 ^ (i + 1) ≤ size then fbLoop fuel size (i + 1)
      else i

/-- Round `n / d` to the nearest integer, ties to even — the rounding of
Python's `f"{x:.1f}"` applied to the exactly-representable value `x`. -/
def roundHalfEven (n d : Nat) : Nat :=
  let q := n / d
  let r := n % d
  if 2 * r < d then q
  else if d < 2 * r then q + 1
  else if q % 2 = 0 then q else q + 1

/-- `format_bytes(size_bytes)` (lines 196-208): `"0B"` for zero; plain integer
with `B` when no division happened; otherwise the value `size / 1024 ^ i`
rendered with one decimal digit (round-half-even) and the unit suffix. -/
def format_bytes (size_bytes : Nat) : String :=
  if size_bytes = 0 then "0B"
  else
    let i := fbLoop 8 size_bytes 0
    if i = 0 then toString size_bytes ++ "B"
    else
      let tenths := roundHalfEven (10 * size_bytes) (1024 ^ i)
      toString (tenths / 10) ++ "." ++ toString (tenths % 10) ++
        sizeName.getD i ""

example : pySplit "4.0K\t/var/x" = ["4.0K", "/var/x"] := by decide
example : parseDf "Size Used Avail Use% Mounted\n100G 10G 90G 10% /var" =
    some ⟨"100G", "10G", "90G", "10%", "/var"⟩ := by decide
example : matchesRetention ⟨"/var/backups/docker/a.tar", 29 * 86400⟩ = true := by
  decide
example : matchesRetention ⟨"/var/backups/docker/a.tar", 28 * 86400⟩ = false := by
  decide
example : matchesRetention ⟨"/var/backups/docker/notes.txt", 90 * 86400⟩
    = false := by decide
example : format_bytes 0 = "0B" := by decide
example : format_bytes 500 = "500B" := by decide
example : format_bytes 1024 = "1.0K" := by decide
example : format_bytes 1536 = "1.5K" := by decide
example : format_bytes 9871024 = "9.4M" := by decide
example : format_bytes 1048575 = "1024.0K" := by decide

/- ### Report composition and send_email_notification (lines 211-334) -/

/-- Lexicographic comparison of character lists by code point — exactly the
string comparison Python's `list.sort` uses for string keys. -/
def lexLe : List Char → List Char → Bool
  | [], _ => true
  | _ :: _, [] => false
  | a :: as, b :: bs =>
    if a.toNat < b.toNat then true
    else if b.toNat < a.toNat then false
    else lexLe as bs

/-- Python `<=` on strings. -/
def strLe (a b : String) : Bool := lexLe a.data b.data

/-- `NEW_ARCHIVES.sort(key=lambda x: x[0])` (line 226): a stable sort by the
archive's path.  Python's sort is stable, and a stable sort's output is
determined by sortedness plus stability, so `List.insertionSort` (also
stable) computes the same list. -/
def sortArchives (l : List Archive) : List Archive :=
  l.insertionSort (fun a b => strLe a.path b.path = true)

/-- `DELETED_FILES.sort()` (line 287). -/
def sortStrings (l : List String) : List String :=
  l.insertionSort (fun a b => strLe a b = true)

/-- The status string derived from the success flag (line 214). -/
def statusOf (st : RunState) : String :=
  if st.backupSuccessful then "SUCCESS" else "FAILURE"

/-- `SEPARATOR = "-" * (FILE_WIDTH + SIZE_WIDTH + 6)` with widths 50 and 8
(lines 228-230). -/
def SEPARATOR : String := ⟨List.replicate 64 '-'⟩

/-- Render one log entry for the email body; the source's per-entry timestamp
is not modelled. -/
def renderEntry : LogEntry → String
  | LogEntry.header t => t
  | LogEntry.entry level m => "[" ++ level ++ "] " ++ m

/-- The disk usage section of the email (lines 258-275). -/
def diskSummaryOf (disk_info : Option DiskInfo) : String :=
  match disk_info with
  | some info =>
    let mount_label := if info.mount = "/" then "/"
      else ⟨(splitAux '/' info.mount.data []).getLastD []⟩
    let disk_line := "Disk: " ++ mount_label ++ " | Total: " ++ info.total ++
      " | Used: " ++ info.used ++ " | Usage: " ++ info.percent
    "DISK USAGE CHECK (on " ++ info.mount ++ "):\n" ++ SEPARATOR ++ "\n" ++
      disk_line ++ "\n" ++ SEPARATOR ++ "\n"
  | none => "DISK USAGE CHECK:\n- Disk usage information not available.\n"

/-- The structured pieces of the composed email. -/
structure Report where
  subject : String
  archivesSorted : List Archive
  totalBytes : Nat
  totalHuman : String
  archiveTable : String
  diskSummary : String
  deletedSorted : List String
  retentionTable : String
  content : String
deriving Repr

/-- The pure report composition inside `send_email_notification`
(lines 211-316): subject line, archive table over the path-sorted archive
list with a total formatted from the exact byte sum, disk section, retention
table over the sorted deletion list, and the full log transcript. -/
def compose_report (env : Env) (st : RunState) (disk_info : Option DiskInfo) :
    Report :=
  let status := statusOf st
  let hostname := match env.hostname with
    | some h => pyStrip h
    | none => "UNKNOWN_HOST"
  let subject := SUBJECT_TAG ++ " " ++ status ++ ": Docker Backup completed on "
    ++ hostname ++ " (" ++ env.date ++ ")"
  let sortedA := sortArchives st.newArchives
  let total_size_bytes := (sortedA.map (fun a => a.sizeBytes)).sum
  let total_size_human := format_bytes total_size_bytes
  let archive_table :=
    if sortedA.isEmpty then
      "SUMMARY OF CREATED ARCHIVES (Alphabetical by filename):\n- No new archives created.\n"
    else
      let archive_rows := strJoin "\n" (sortedA.map (fun a =>
        padLeft a.sizeHuman 8 ++ "    " ++ padRight a.path 50))
      let total_line := padLeft total_size_human 8 ++ "    " ++
        padRight "TOTAL SIZE OF NEW ARCHIVES" 50
      "SUMMARY OF CREATED ARCHIVES (Alphabetical by filename):\n" ++
        SEPARATOR ++ "\n" ++ padRight "SIZE" 8 ++ "    " ++
        padRight "FILENAME" 50 ++ "\n" ++ SEPARATOR ++ "\n" ++ archive_rows ++
        "\n" ++ SEPARATOR ++ "\n" ++ total_line ++ "\n" ++ SEPARATOR ++ "\n"
  let disk_summary := diskSummaryOf disk_info
  let sortedD := if st.deletedFiles.isEmpty then st.deletedFiles
    else sortStrings st.deletedFiles
  let retention_head := "RETENTION CLEANUP (Older than " ++
    toString DAILY_RETENTION_DAYS ++ " days):\n" ++ SEPARATOR ++ "\n"
  let retention_table :=
    if st.deletedFiles.isEmpty then
      retention_head ++ "No files older than " ++ toString DAILY_RETENTION_DAYS
        ++ " days were deleted.\n" ++ SEPARATOR ++ "\n"
    else
      let retention_rows := strJoin "\n" (sortedD.map (fun name =>
        padRight name 63))
      retention_head ++ padRight "DELETED FILENAME" 63 ++ "\n" ++ SEPARATOR ++
        "\n" ++ retention_rows ++ "\n" ++ SEPARATOR ++ "\n"
  let log_body := strJoin "\n" (st.logMessages.map renderEntry)
  let content := "\n    Docker Stacks Backup Script Report (" ++ status ++
    ")\n    \n    " ++ archive_table ++ "\n\n    " ++ disk_summary ++
    "\n\n    " ++ retention_table ++ "\n    \n    --- Full Log ---\n    " ++
    log_body ++ "\n    "
  { subject := subject
    archivesSorted := sortedA
    totalBytes := total_size_bytes
    totalHuman := total_size_human
    archiveTable := archive_table
    diskSummary := disk_summary
    deletedSorted := sortedD
    retentionTable := retention_table
    content := content }

/-- `send_email_notification(disk_info)` (lines 211-334): compose the report
(the source's in-place `NEW_ARCHIVES.sort` / `DELETED_FILES.sort` become the
sorted lists stored back into the state), then attempt SMTP delivery, logging
`"Email sent successfully."` at INFO or the failure at ERROR. -/
def send_email_notification (env : Env) (st : RunState)
    (disk_info : Option DiskInfo) : RunState :=
  let rep := compose_report env st disk_info
  let st := { st with
    newArchives := rep.archivesSorted
    deletedFiles := rep.deletedSorted }
  let st := log st "Sending email notification..."
  if env.smtpOk then log st "Email sent successfully."
  else log st "Failed to send email" "ERROR"

/- ### main (lines 338-401) -/

/-- The initial run state: empty accumulators, success flag `True`, and the
raw header block appended to `LOG_MESSAGES` at line 345. -/
def initState : RunState :=
  { logMessages := [LogEntry.header "--- DOCKER BACKUP SCRIPT START ---"]
    backupSuccessful := true
    newArchives := []
    deletedFiles := []
    cmds := [] }

/-- `all_stacks` (lines 354-356): the five configured stack directories plus
the extra stack path (the constant `EXTRA_STACK_PATH` is a nonempty string,
hence truthy in the source's `if EXTRA_STACK_PATH:`). -/
def allStacksList : List String :=
  STACKS.map (fun s => BASE_DIR ++ "/" ++ s) ++ [EXTRA_STACK_PATH]

/-- Phase 1 (lines 358-362): stop every stack, collecting the paths whose stop
attempt returned success (including the vacuous success for an absent
directory) in order. -/
def phase1 (env : Env) (st : RunState) : RunState × List String :=
  allStacksList.foldl (fun acc p =>
    let r := compose_action env acc.1 p "down"
    (r.1, if r.2 then acc.2 ++ [p] else acc.2)) (st, [])

/-- Phase 2 (lines 364-371): archive every configured stack unconditionally,
then the extra stack. -/
def phase2 (env : Env) (st : RunState) : RunState :=
  let st := STACKS.foldl (fun st s =>
    (create_archive env st s BASE_DIR (BASE_DIR ++ "/" ++ s)).1) st
  (create_archive env st (basename EXTRA_STACK_PATH)
    (dirname EXTRA_STACK_PATH) EXTRA_STACK_PATH).1

/-- Phase 3 (lines 373-377): issue a start for each successfully stopped
stack.  The second component is a ghost record of the stacks for which an
`up` command was actually issued; by `compose_action_cmds` below,
`compose_action` hands a command to the runner exactly when the stack
directory exists. -/
def phase3 (env : Env) (st : RunState) (stopped : List String) :
    RunState × List String :=
  stopped.foldl (fun acc p =>
    let r := compose_action env acc.1 p "up"
    (r.1, if env.isDir p then acc.2 ++ [p] else acc.2)) (st, [])

/-- The observable outcome of one execution of `main`. -/
structure RunOutcome where
  state : RunState
  stoppedStacks : List String
  startedStacks : List String
  diskInfo : Option DiskInfo
  exitCode : Nat
deriving Repr

/-- State after the Phase-0 and Phase-1 banner logs (lines 347-352). -/
def stage01 : RunState :=
  log (log initState "Phase 0: Initializing directories.")
    "Phase 1: Stopping all Docker Compose stacks."

/-- State and stopped list after the stop loop (lines 358-362). -/
def stageStop (env : Env) : RunState × List String :=
  phase1 env stage01

/-- State after the archive loop (lines 364-371). -/
def stageArch (env : Env) : RunState :=
  phase2 env (log (stageStop env).1 "Phase 2: Creating uncompressed TAR archives.")

/-- State and ghost started list after the start loop (lines 373-377). -/
def stageStart (env : Env) : RunState × List String :=
  phase3 env
    (log (stageArch env)
      "Phase 3: Starting all successfully stopped Docker Compose stacks.")
    (stageStop env).2

/-- State after the retention cleanup (lines 379-381). -/
def stageClean (env : Env) : RunState :=
  cleanup_local_backups env
    (log (stageStart env).1 "Phase 4: Running local retention cleanup.")

/-- State and disk sample after `get_disk_usage` (line 384). -/
def stageDisk (env : Env) : RunState × Option DiskInfo :=
  get_disk_usage env (stageClean env)

/-- Final state after notification and the end banner (lines 385-387). -/
def stageFinal (env : Env) : RunState :=
  log (send_email_notification env (stageDisk env).1 (stageDisk env).2)
    "--- DOCKER BACKUP SCRIPT END ---"

/-- `main()` (lines 338-401): phases 0-5 in order, then `sys.exit(1)` when
`BACKUP_SUCCESSFUL` is false and `sys.exit(0)` otherwise (lines 395-398).
A failure to append the log file only prints to stderr and does not change
the exit code, so it is not modelled. -/
def mainRun (env : Env) : RunOutcome :=
  { state := stageFinal env
    stoppedStacks := (stageStop env).2
    startedStacks := (stageStart env).2
    diskInfo := (stageDisk env).2
    exitCode := if (stageFinal env).backupSuccessful then 0 else 1 }

/- ### Concrete environments used in counterexamples and witnesses -/

/-- A fixed timestamp for the concrete environments. -/
def TS0 : String := "20260101_120000"

/-- A well-formed `df` output: header line plus a five-field data row. -/
def dfOutGood : String := "Size Used Avail Use% Mounted\n100G 10G 90G 10% /var"

/-- The fully healthy environment: every directory exists, every command
succeeds (with parseable `df` output), sizes measure fine, retention finds
nothing, mail goes out. -/
def envAllOk : Env :=
  { isDir := fun _ => true
    fileExists := fun _ => true
    cmdResult := fun c => if c = dfCmd then some dfOutGood else some ""
    duOutput := fun _ => some "4.0K /x"
    getSize := fun _ => some 4096
    backupFiles := []
    findOk := true
    removeOk := fun _ => true
    hostname := some "host1"
    date := "2026-01-01"
    timestamp := TS0
    smtpOk := true }

/-- Scenario "one stack directory absent": exactly `stack2`'s directory is
missing and every external command succeeds, except that, as `tar` does for a
nonexistent source directory, the tar command for `stack2` fails. -/
def envScenarioB : Env :=
  { envAllOk with
    isDir := fun p => p != "/opt/stacks/stack2"
    cmdResult := fun c =>
      if c = ["tar", "-c", "-f", "/var/backups/docker/stack2/stack2_" ++ TS0 ++
          ".tar", "-C", "/opt/stacks", "stack2"] then none
      else if c = dfCmd then some dfOutGood else some "" }

/-- Everything succeeds except that the `df` disk-usage command itself fails
(nonzero exit).  This is the claimed "measurement failure" scenario. -/
def envDfFail : Env :=
  { envAllOk with
    cmdResult := fun c => if c = dfCmd then none else some "" }

/-- Everything succeeds but the `df` output is unparseable (a single line). -/
def envDfBad : Env :=
  { envAllOk with
    cmdResult := fun c => if c = dfCmd then some "garbage" else some "" }

/-- Everything succeeds except the tar command for `stack3`. -/
def envTarFail : Env :=
  { envAllOk with
    cmdResult := fun c =>
      if c = ["tar", "-c", "-f", "/var/backups/docker/stack3/stack3_" ++ TS0 ++
          ".tar", "-C", "/opt/stacks", "stack3"] then none
      else if c = dfCmd then some dfOutGood else some "" }

/-- Everything succeeds but the size measurement (`du`) of every archive
fails. -/
def envSizeFail : Env :=
  { envAllOk with duOutput := fun _ => none }

/-- A stack whose directory exists but which contains neither
`compose.yaml` nor `docker-compose.yml`; `docker compose -f` on the
nonexistent default file fails. -/
def envNoCompose : Env :=
  { envAllOk with
    fileExists := fun _ => false
    cmdResult := fun c =>
      if c = ["docker", "compose", "-f", "/opt/stacks/stack1/docker-compose.yml",
          "down"] then none
      else if c = dfCmd then some dfOutGood else some "" }

/-- A backup root holding three expired archives (29 days old), one archive
exactly at the 28-day boundary, and one fresh archive, plus a non-tar file
older than the window. -/
def envRetention : Env :=
  { envAllOk with
    backupFiles :=
      [⟨"/var/backups/docker/stack1/stack1_a.tar", 29 * 86400⟩,
       ⟨"/var/backups/docker/stack1/stack1_b.tar", 30 * 86400⟩,
       ⟨"/var/backups/docker/stack2/stack2_a.tar", 29 * 86400 + 3600⟩,
       ⟨"/var/backups/docker/stack2/stack2_boundary.tar", 28 * 86400⟩,
       ⟨"/var/backups/docker/stack3/stack3_fresh.tar", 60⟩,
       ⟨"/var/backups/docker/notes.txt", 90 * 86400⟩] }

/- ### Order properties of the sort comparison -/

theorem lexLe_total : ∀ as bs : List Char, lexLe as bs = true ∨ lexLe bs as = true := by
  intro as
  induction as with
  | nil => intro bs; left; rfl
  | cons a as ih =>
    intro bs
    cases bs with
    | nil => right; rfl
    | cons b bs =>
      by_cases h1 : a.toNat < b.toNat
      · left; simp [lexLe, h1]
      · by_cases h2 : b.toNat < a.toNat
        · right; simp [lexLe, h2]
        · rcases ih bs with h | h
          · left; simp [lexLe, h1, h2, h]
          · right; simp [lexLe, h1, h2, h]

theorem lexLe_cons_iff (a b : Char) (as bs : List Char) :
    lexLe (a :: as) (b :: bs) = true ↔
      (a.toNat < b.toNat ∨ (a.toNat = b.toNat ∧ lexLe as bs = true)) := by
  simp only [lexLe]
  by_cases h1 : a.toNat < b.toNat
  · simp [h1]
  · by_cases h2 : b.toNat < a.toNat
    · simp [h1, h2, show a.toNat ≠ b.toNat by omega]
    · simp [h1, h2, show a.toNat = b.toNat by omega]

theorem lexLe_trans : ∀ as bs cs : List Char,
    lexLe as bs = true → lexLe bs cs = true → lexLe as cs = true := by
  intro as
  induction as with
  | nil => intro bs cs _ _; rfl
  | cons a as ih =>
    intro bs cs hab hbc
    cases bs with
    | nil => simp [lexLe] at hab
    | cons b bs =>
      cases cs with
      | nil => simp [lexLe] at hbc
      | cons c cs =>
        rw [lexLe_cons_iff] at hab hbc ⊢
        rcases hab with h | ⟨h, hr⟩ <;> rcases hbc with h2 | ⟨h2, hr2⟩
        · left; omega
        · left; omega
        · left; omega
        · right; exact ⟨by omega, ih bs cs hr hr2⟩

instance : IsTotal Archive (fun a b => strLe a.path b.path = true) :=
  ⟨fun a b => lexLe_total a.path.data b.path.data⟩

instance : IsTrans Archive (fun a b => strLe a.path b.path = true) :=
  ⟨fun _ _ _ h1 h2 => lexLe_trans _ _ _ h1 h2⟩

instance : IsTotal String (fun a b => strLe a b = true) :=
  ⟨fun a b => lexLe_total a.data b.data⟩

instance : IsTrans String (fun a b => strLe a b = true) :=
  ⟨fun _ _ _ h1 h2 => lexLe_trans _ _ _ h1 h2⟩

/- ### The state-extension relation

Every operation of the program only appends to `LOG_MESSAGES` and to the
command trace, and the success flag after an operation is the incoming flag
conjoined with "none of the newly appended entries is an ERROR" (because
`log` is the only writer of both). -/

/-- `st'` is reachable from `st` by appending log entries and commands, with
the success flag evolving exactly as `log` dictates. -/
def Extends (st st' : RunState) : Prop :=
  (∃ l, st'.logMessages = st.logMessages ++ l ∧
    st'.backupSuccessful = (st.backupSuccessful && l.all (fun e => !isError e)))
  ∧ (∃ c, st'.cmds = st.cmds ++ c)

theorem Extends.refl (st : RunState) : Extends st st :=
  ⟨⟨[], by simp, by simp⟩, ⟨[], by simp⟩⟩

theorem Extends.trans {s t u : RunState} (h1 : Extends s t) (h2 : Extends t u) :
    Extends s u := by
  obtain ⟨⟨l1, hl1, hf1⟩, ⟨c1, hc1⟩⟩ := h1
  obtain ⟨⟨l2, hl2, hf2⟩, ⟨c2, hc2⟩⟩ := h2
  refine ⟨⟨l1 ++ l2, ?_, ?_⟩, ⟨c1 ++ c2, ?_⟩⟩
  · rw [hl2, hl1, List.append_assoc]
  · rw [hf2, hf1, List.all_append, Bool.and_assoc]
  · rw [hc2, hc1, List.append_assoc]

theorem Extends.flag_false {s t : RunState} (h : Extends s t)
    (hs : s.backupSuccessful = false) : t.backupSuccessful = false := by
  obtain ⟨⟨l, _, hf⟩, _⟩ := h
  rw [hf, hs, Bool.false_and]

theorem Extends.mem_log {s t : RunState} (h : Extends s t) {e : LogEntry}
    (he : e ∈ s.logMessages) : e ∈ t.logMessages := by
  obtain ⟨⟨l, hl, _⟩, _⟩ := h
  rw [hl]; exact List.mem_append_left _ he

theorem Extends.mem_cmds {s t : RunState} (h : Extends s t) {c : List String}
    (hc : c ∈ s.cmds) : c ∈ t.cmds := by
  obtain ⟨_, ⟨l, hl⟩⟩ := h
  rw [hl]; exact List.mem_append_left _ hc

/-- The success flag equals "no ERROR entry has been logged". -/
def FlagInv (st : RunState) : Prop :=
  st.backupSuccessful = st.logMessages.all (fun e => !isError e)

theorem Extends.flagInv {s t : RunState} (h : Extends s t) (hs : FlagInv s) :
    FlagInv t := by
  obtain ⟨⟨l, hl, hf⟩, _⟩ := h
  unfold FlagInv at hs ⊢
  rw [hl, hf, hs, List.all_append]

theorem flagInv_initState : FlagInv initState := rfl

/- ### Per-operation extension lemmas -/

theorem extends_log (st : RunState) (m lvl : String) : Extends st (log st m lvl) := by
  refine ⟨⟨[LogEntry.entry lvl m], rfl, ?_⟩, ⟨[], by simp [log]⟩⟩
  by_cases h : lvl = "ERROR" <;> simp [log, isError, h]

theorem extends_set_cmds (st : RunState) (c : List (List String)) :
    Extends st { st with cmds := st.cmds ++ c } :=
  ⟨⟨[], by simp, by simp⟩, ⟨c, rfl⟩⟩

theorem extends_run_command (env : Env) (st : RunState) (c : List String)
    (d : String) : Extends st (run_command env st c d).1 := by
  unfold run_command
  cases h : env.cmdResult c with
  | none =>
    exact Extends.trans (Extends.trans (extends_log _ _ _) (extends_set_cmds _ _))
      (extends_log _ _ _)
  | some out =>
    exact Extends.trans (Extends.trans (extends_log _ _ _) (extends_set_cmds _ _))
      (extends_log _ _ _)

theorem extends_compose_action (env : Env) (st : RunState) (p a : String) :
    Extends st (compose_action env st p a).1 := by
  unfold compose_action
  cases h : env.isDir p with
  | false => simp only [Bool.false_eq_true, if_false]; exact extends_log _ _ _
  | true =>
    simp only [if_true]
    exact Extends.trans (extends_log _ _ _) (extends_run_command _ _ _ _)

theorem extends_set_newArchives (st : RunState) (a : List Archive) :
    Extends st { st with newArchives := st.newArchives ++ a } :=
  ⟨⟨[], by simp, by simp⟩, ⟨[], by simp⟩⟩

theorem extends_archiveRun (env : Env) (st : RunState) (cl : List String)
    (an tf : String) : Extends st (archiveRun env st cl an tf).1 := by
  simp only [archiveRun]
  cases h : (run_command env st cl ("Archiving " ++ an)).2 with
  | none => exact extends_run_command _ _ _ _
  | some out =>
    exact Extends.trans (extends_run_command _ _ _ _) (extends_set_newArchives _ _)

theorem extends_create_archive (env : Env) (st : RunState) (n b p : String) :
    Extends st (create_archive env st n b p).1 := by
  simp only [create_archive]
  split
  · split
    · exact Extends.trans (extends_log _ _ _) (extends_archiveRun _ _ _ _ _)
    · exact Extends.trans (extends_log _ _ _) (extends_log _ _ _)
  · exact Extends.trans (extends_log _ _ _) (extends_archiveRun _ _ _ _ _)

theorem extends_foldl_state {α : Type} (f : RunState → α → RunState)
    (hf : ∀ st x, Extends st (f st x)) :
    ∀ (l : List α) (st : RunState), Extends st (l.foldl f st) := by
  intro l
  induction l with
  | nil => intro st; exact Extends.refl st
  | cons x xs ih => intro st; exact Extends.trans (hf st x) (ih (f st x))

theorem extends_foldl_pair {α γ : Type} (g : RunState × γ → α → RunState × γ)
    (hg : ∀ acc x, Extends acc.1 (g acc x).1) :
    ∀ (l : List α) (acc : RunState × γ), Extends acc.1 (l.foldl g acc).1 := by
  intro l
  induction l with
  | nil => intro acc; exact Extends.refl acc.1
  | cons x xs ih => intro acc; exact Extends.trans (hg acc x) (ih (g acc x))

theorem extends_set_deleted (st : RunState) (d : List String) :
    Extends st { st with deletedFiles := st.deletedFiles ++ d } :=
  ⟨⟨[], by simp, by simp⟩, ⟨[], by simp⟩⟩

theorem extends_cleanup (env : Env) (st : RunState) :
    Extends st (cleanup_local_backups env st) := by
  simp only [cleanup_local_backups]
  split
  · refine Extends.trans ?_ (extends_log _ _ _)
    refine Extends.trans (extends_log st _ _) (extends_foldl_pair _ ?_ _ _)
    intro acc x
    dsimp only
    split
    · exact Extends.trans (extends_set_deleted _ _) (extends_log _ _ _)
    · exact extends_log _ _ _
  · exact Extends.trans (extends_log st _ _) (extends_log _ _ _)

theorem extends_get_disk_usage (env : Env) (st : RunState) :
    Extends st (get_disk_usage env st).1 := by
  simp only [get_disk_usage]
  cases h : (run_command env st dfCmd "Checking disk usage").2 with
  | none => exact Extends.trans (extends_run_command _ _ _ _) (extends_log _ _ _)
  | some out =>
    dsimp only
    cases hp : parseDf out with
    | none => exact Extends.trans (extends_run_command _ _ _ _) (extends_log _ _ _)
    | some info => exact extends_run_command _ _ _ _

theorem extends_set_sorted (st : RunState) (a : List Archive) (d : List String) :
    Extends st { st with newArchives := a, deletedFiles := d } :=
  ⟨⟨[], by simp, by simp⟩, ⟨[], by simp⟩⟩

theorem extends_send_email (env : Env) (st : RunState) (disk : Option DiskInfo) :
    Extends st (send_email_notification env st disk) := by
  simp only [send_email_notification]
  split
  · exact Extends.trans (extends_set_sorted _ _ _)
      (Extends.trans (extends_log _ _ _) (extends_log _ _ _))
  · exact Extends.trans (extends_set_sorted _ _ _)
      (Extends.trans (extends_log _ _ _) (extends_log _ _ _))

theorem extends_phase1 (env : Env) (st : RunState) :
    Extends st (phase1 env st).1 := by
  simp only [phase1]
  refine extends_foldl_pair _ ?_ allStacksList (st, [])
  intro acc p
  exact extends_compose_action env acc.1 p "down"

theorem extends_phase2 (env : Env) (st : RunState) :
    Extends st (phase2 env st) := by
  simp only [phase2]
  refine Extends.trans (extends_foldl_state _ ?_ STACKS st)
    (extends_create_archive _ _ _ _ _)
  intro st s
  exact extends_create_archive env st s BASE_DIR (BASE_DIR ++ "/" ++ s)

theorem extends_phase3 (env : Env) (st : RunState) (stopped : List String) :
    Extends st (phase3 env st stopped).1 := by
  simp only [phase3]
  refine extends_foldl_pair _ ?_ stopped (st, [])
  intro acc p
  exact extends_compose_action env acc.1 p "up"

/- ### Stage-to-stage extension and the flag invariant over a run -/

theorem extends_init_stage01 : Extends initState stage01 :=
  Extends.trans (extends_log _ _ _) (extends_log _ _ _)

theorem extends_stage01_stop (env : Env) : Extends stage01 (stageStop env).1 :=
  extends_phase1 env stage01

theorem extends_stop_arch (env : Env) :
    Extends (stageStop env).1 (stageArch env) :=
  Extends.trans (extends_log _ _ _) (extends_phase2 env _)

theorem extends_arch_start (env : Env) :
    Extends (stageArch env) (stageStart env).1 :=
  Extends.trans (extends_log _ _ _) (extends_phase3 env _ _)

theorem extends_start_clean (env : Env) :
    Extends (stageStart env).1 (stageClean env) :=
  Extends.trans (extends_log _ _ _) (extends_cleanup env _)

theorem extends_clean_disk (env : Env) :
    Extends (stageClean env) (stageDisk env).1 :=
  extends_get_disk_usage env _

theorem extends_disk_final (env : Env) :
    Extends (stageDisk env).1 (stageFinal env) :=
  Extends.trans (extends_send_email env _ _) (extends_log _ _ _)

theorem extends_arch_final (env : Env) :
    Extends (stageArch env) (stageFinal env) :=
  Extends.trans (extends_arch_start env) (Extends.trans (extends_start_clean env)
    (Extends.trans (extends_clean_disk env) (extends_disk_final env)))

theorem extends_stop_final (env : Env) :
    Extends (stageStop env).1 (stageFinal env) :=
  Extends.trans (extends_stop_arch env) (extends_arch_final env)

theorem extends_init_final (env : Env) : Extends initState (stageFinal env) :=
  Extends.trans extends_init_stage01
    (Extends.trans (extends_stage01_stop env) (extends_stop_final env))

theorem flagInv_final (env : Env) : FlagInv (stageFinal env) :=
  Extends.flagInv (extends_init_final env) flagInv_initState

/-- C2: For every run, the derived status is FAILURE if and only if at least
one ERROR-level entry was recorded in the log (with zero ERROR entries the
status is SUCCESS), and the process exits with code 0 if and only if the
status is SUCCESS, otherwise with code 1. -/
theorem c2_status_iff_errors (env : Env) :
    (statusOf (mainRun env).state = "FAILURE" ↔
      ∃ e ∈ (mainRun env).state.logMessages, isError e = true)
    ∧ ((mainRun env).exitCode = 0 ↔ statusOf (mainRun env).state = "SUCCESS")
    ∧ ((mainRun env).exitCode = 1 ↔ statusOf (mainRun env).state = "FAILURE") := by
  have hinv : FlagInv (stageFinal env) := flagInv_final env
  unfold FlagInv at hinv
  have hstate : (mainRun env).state = stageFinal env := rfl
  have hexit : (mainRun env).exitCode =
      if (stageFinal env).backupSuccessful then 0 else 1 := rfl
  rw [hstate, hexit]
  cases hf : (stageFinal env).backupSuccessful with
  | false =>
    rw [hf] at hinv
    have hex : ∃ e ∈ (stageFinal env).logMessages, isError e = true := by
      rcases List.all_eq_false.mp hinv.symm with ⟨e, he, hne⟩
      exact ⟨e, he, by simpa using hne⟩
    simp [statusOf, hf, hex]
  | true =>
    rw [hf] at hinv
    have hall := List.all_eq_true.mp hinv.symm
    have hnone : ¬ ∃ e ∈ (stageFinal env).logMessages, isError e = true := by
      rintro ⟨e, he, hiserr⟩
      have := hall e he
      simp [hiserr] at this
    simp [statusOf, hf, hnone]

/- ### Reduction of the whitespace split of the tar command line -/

theorem splitWsAux_sep (ys : List Char) :
    ∀ (xs acc : List Char),
      splitWsAux (xs ++ ' ' :: ys) acc = splitWsAux xs acc ++ splitWsAux ys [] := by
  intro xs
  induction xs with
  | nil => intro acc; simp [splitWsAux, isWs]
  | cons x xs ih =>
    intro acc
    cases h : isWs x <;> simp [splitWsAux, h, ih]

theorem splitWsAux_no_sep :
    ∀ (xs acc : List Char), (∀ c ∈ xs, isWs c = false) →
      splitWsAux xs acc = [acc.reverse ++ xs] := by
  intro xs
  induction xs with
  | nil => intro acc _; simp [splitWsAux]
  | cons x xs ih =>
    intro acc h
    have hx : isWs x = false := h x (List.mem_cons_self x xs)
    have hxs : ∀ c ∈ xs, isWs c = false := fun c hc =>
      h c (List.mem_cons_of_mem x hc)
    simp [splitWsAux, hx, ih _ hxs]

theorem splitWsAux_token (t rest : List Char) (ht : ∀ c ∈ t, isWs c = false) :
    splitWsAux (t ++ ' ' :: rest) [] = t :: splitWsAux rest [] := by
  rw [splitWsAux_sep, splitWsAux_no_sep t [] ht]
  simp

/-- The whitespace split performed by `create_archive` (line 107) on the
command string of line 105, for whitespace-free nonempty path components. -/
theorem pySplit_tar_cmd (T R N : String)
    (hT : wsFree T) (hR : wsFree R) (hN : wsFree N)
    (hT0 : T.data ≠ []) (hR0 : R.data ≠ []) (hN0 : N.data ≠ []) :
    pySplit (TAR_COMMAND ++ " " ++ T ++ " -C " ++ R ++ " " ++ N) =
      ["tar", "-c", "-f", T, "-C", R, N] := by
  unfold pySplit
  have hdata : (TAR_COMMAND ++ " " ++ T ++ " -C " ++ R ++ " " ++ N).data =
      ['t', 'a', 'r'] ++ ' ' :: (['-', 'c'] ++ ' ' :: (['-', 'f'] ++ ' ' ::
        (T.data ++ ' ' :: (['-', 'C'] ++ ' ' :: (R.data ++ ' ' :: N.data))))) := by
    have htc : TAR_COMMAND.data = ['t', 'a', 'r', ' ', '-', 'c', ' ', '-', 'f'] := rfl
    simp only [String.data_append, htc]
    simp [List.append_assoc]
  rw [hdata]
  rw [splitWsAux_token _ _ (by decide), splitWsAux_token _ _ (by decide),
    splitWsAux_token _ _ (by decide), splitWsAux_token _ _ hT,
    splitWsAux_token _ _ (by decide), splitWsAux_token _ _ hR,
    splitWsAux_no_sep _ _ hN]
  have eT : T.data.isEmpty = false := by
    cases h : T.data with
    | nil => exact absurd h hT0
    | cons a l => rfl
  have eR : R.data.isEmpty = false := by
    cases h : R.data with
    | nil => exact absurd h hR0
    | cons a l => rfl
  have eN : N.data.isEmpty = false := by
    cases h : N.data with
    | nil => exact absurd h hN0
    | cons a l => rfl
  simp [List.filter, eT, eR, eN]

theorem indexOf_dashC_le (T R N : String) :
    (["tar", "-c", "-f", T, "-C", R, N] : List String).indexOf "-C" ≤ 4 := by
  cases h : (T == "-C") <;> simp +decide [List.indexOf, List.findIdx_cons, h]

theorem wsFree_append {a b : String} (ha : wsFree a) (hb : wsFree b) :
    wsFree (a ++ b) := by
  intro c hc
  rw [String.data_append] at hc
  rcases List.mem_append.mp hc with h | h
  · exact ha c h
  · exact hb c h

theorem targetFilename_space (env : Env) (an : String) (han : wsFree an)
    (hts : wsFree env.timestamp) : wsFree (targetFilename env an) :=
  wsFree_append (wsFree_append (wsFree_append (wsFree_append (wsFree_append
    (wsFree_append (wsFree_append (wsFree_append (by decide) (by decide)) han)
    (by decide)) han) (by decide)) hts) (by decide)) (by decide)

theorem targetFilename_data_ne (env : Env) (an : String) :
    (targetFilename env an).data ≠ [] := by
  have hb : BACKUP_DIR.data = ['/', 'v', 'a', 'r', '/', 'b', 'a', 'c', 'k', 'u',
    'p', 's', '/', 'd', 'o', 'c', 'k', 'e', 'r'] := rfl
  simp [targetFilename, String.data_append, hb]

theorem targetFilename_ne_dashC (env : Env) (an : String) :
    targetFilename env an ≠ "-C" := by
  intro h
  have hlen := congrArg (fun s => s.data.length) h
  simp +decide [targetFilename, String.data_append, List.length_append] at hlen
  omega

/-- `create_archive` always passes its `-C` sanity check and reduces to
`archiveRun` on the seven-token tar command, provided the path components are
space-free (the configured names are; the timestamp hypothesis is recorded in
`Env`). -/
theorem create_archive_run (env : Env) (st : RunState) (n b p : String)
    (han : wsFree (archiveName n p)) (han0 : (archiveName n p).data ≠ [])
    (har : wsFree (archiveRootDir b p)) (har0 : (archiveRootDir b p).data ≠ [])
    (hts : wsFree env.timestamp) :
    create_archive env st n b p =
      archiveRun env
        (log st ("Creating uncompressed archive for '" ++ archiveName n p ++
          "' at " ++ targetFilename env (archiveName n p) ++ "..."))
        ["tar", "-c", "-f", targetFilename env (archiveName n p), "-C",
          archiveRootDir b p, archiveName n p]
        (archiveName n p) (targetFilename env (archiveName n p)) := by
  simp only [create_archive]
  rw [pySplit_tar_cmd _ _ _ (targetFilename_space env _ han hts) har han
    (targetFilename_data_ne env _) har0 han0]
  rw [if_pos (by simp : ("-C" : String) ∈ ["tar", "-c", "-f",
    targetFilename env (archiveName n p), "-C", archiveRootDir b p,
    archiveName n p])]
  rw [if_pos]
  have := indexOf_dashC_le (targetFilename env (archiveName n p))
    (archiveRootDir b p) (archiveName n p)
  simp only [List.length_cons, List.length_nil]
  omega

/- ### Outcome equations for run_command, archiveRun and create_archive -/

theorem run_command_none_eq (env : Env) (st : RunState) (c : List String)
    (d : String) (h : env.cmdResult c = none) :
    run_command env st c d =
      (log { log st ("Starting command: " ++ d ++ " (" ++ strJoin " " c ++ ")") with
          cmds := st.cmds ++ [c] } ("Failed: " ++ d) "ERROR", none) := by
  simp only [run_command, h]
  rfl

theorem run_command_some_eq (env : Env) (st : RunState) (c : List String)
    (d out : String) (h : env.cmdResult c = some out) :
    run_command env st c d =
      (log { log st ("Starting command: " ++ d ++ " (" ++ strJoin " " c ++ ")") with
          cmds := st.cmds ++ [c] } ("Successfully finished: " ++ d),
        some (pyStrip out)) := by
  simp only [run_command, h]
  rfl

theorem run_command_cmds (env : Env) (st : RunState) (c : List String)
    (d : String) : (run_command env st c d).1.cmds = st.cmds ++ [c] := by
  simp only [run_command]
  cases h : env.cmdResult c <;> simp [log]

theorem archiveRun_cmds (env : Env) (st : RunState) (cl : List String)
    (an tf : String) : (archiveRun env st cl an tf).1.cmds = st.cmds ++ [cl] := by
  simp only [archiveRun]
  cases h : (run_command env st cl ("Archiving " ++ an)).2 with
  | none => exact run_command_cmds env st cl _
  | some out =>
    dsimp only
    exact run_command_cmds env st cl _

theorem archiveRun_fail_eq (env : Env) (st : RunState) (cl : List String)
    (an tf : String) (h : env.cmdResult cl = none) :
    archiveRun env st cl an tf =
      ((run_command env st cl ("Archiving " ++ an)).1, false) := by
  have h2 : (run_command env st cl ("Archiving " ++ an)).2 = none := by
    rw [run_command_none_eq env st cl _ h]
  simp [archiveRun, h2]

theorem archiveRun_na_eq (env : Env) (st : RunState) (cl : List String)
    (an tf out : String) (h : env.cmdResult cl = some out)
    (hna : env.duOutput tf = none ∨ env.getSize tf = none) :
    archiveRun env st cl an tf =
      ({ (run_command env st cl ("Archiving " ++ an)).1 with newArchives :=
          (run_command env st cl ("Archiving " ++ an)).1.newArchives ++
            [⟨tf, "N/A", 0⟩] }, true) := by
  have h2 : (run_command env st cl ("Archiving " ++ an)).2 = some (pyStrip out) := by
    rw [run_command_some_eq env st cl _ out h]
  rcases hna with hdu | hgs
  · simp [archiveRun, h2, hdu]
  · cases hdu : env.duOutput tf <;> simp [archiveRun, h2, hdu, hgs]

/-- The tar argument vector for a regular (non-extra) stack named `s`. -/
def tarCmdOf (env : Env) (s : String) : List String :=
  ["tar", "-c", "-f", targetFilename env s, "-C", BASE_DIR, s]

/-- The tar argument vector for the extra stack. -/
def tarCmdExtra (env : Env) : List String :=
  ["tar", "-c", "-f", targetFilename env "dockge", "-C", "/opt", "dockge"]

theorem create_archive_cmds (env : Env) (st : RunState) (n b p : String)
    (han : wsFree (archiveName n p)) (han0 : (archiveName n p).data ≠ [])
    (har : wsFree (archiveRootDir b p)) (har0 : (archiveRootDir b p).data ≠ [])
    (hts : wsFree env.timestamp) :
    (create_archive env st n b p).1.cmds = st.cmds ++
      [["tar", "-c", "-f", targetFilename env (archiveName n p), "-C",
        archiveRootDir b p, archiveName n p]] := by
  rw [create_archive_run env st n b p han han0 har har0 hts, archiveRun_cmds]
  rfl

theorem create_archive_fail (env : Env) (st : RunState) (n b p : String)
    (han : wsFree (archiveName n p)) (han0 : (archiveName n p).data ≠ [])
    (har : wsFree (archiveRootDir b p)) (har0 : (archiveRootDir b p).data ≠ [])
    (hts : wsFree env.timestamp)
    (hfail : env.cmdResult ["tar", "-c", "-f", targetFilename env (archiveName n p),
      "-C", archiveRootDir b p, archiveName n p] = none) :
    (create_archive env st n b p).2 = false
    ∧ (create_archive env st n b p).1.newArchives = st.newArchives
    ∧ (create_archive env st n b p).1.backupSuccessful = false
    ∧ LogEntry.entry "ERROR" ("Failed: " ++ ("Archiving " ++ archiveName n p)) ∈
        (create_archive env st n b p).1.logMessages := by
  rw [create_archive_run env st n b p han han0 har har0 hts,
    archiveRun_fail_eq _ _ _ _ _ hfail, run_command_none_eq _ _ _ _ hfail]
  refine ⟨rfl, rfl, ?_, ?_⟩
  · simp [log]
  · simp [log]

/- ### compose_action characterization -/

/-- When the stack directory exists, `compose_action` hands exactly one
command to the runner: the compose command for the discovered file. -/
theorem compose_action_cmds (env : Env) (st : RunState) (p a : String)
    (hdir : env.isDir p = true) :
    (compose_action env st p a).1.cmds = st.cmds ++ [composeCmd env p a] := by
  simp only [compose_action, hdir, if_true]
  rw [run_command_cmds]
  rfl

/-- When the stack directory is absent, `compose_action` issues no command,
logs a WARNING, and returns vacuous success (lines 66-68). -/
theorem compose_action_absent (env : Env) (st : RunState) (p a : String)
    (hdir : env.isDir p = false) :
    compose_action env st p a =
      (log st ("Stack directory not found at " ++ p ++ ". Skipping " ++ a ++ ".")
        "WARNING", true) := by
  simp [compose_action, hdir]

/-- When the directory exists and the compose command fails, `compose_action`
returns `false` and the run is marked failed by the ERROR entry from
`run_command`. -/
theorem compose_action_fail (env : Env) (st : RunState) (p a : String)
    (hdir : env.isDir p = true)
    (hfail : env.cmdResult (composeCmd env p a) = none) :
    (compose_action env st p a).2 = false
    ∧ (compose_action env st p a).1.backupSuccessful = false := by
  simp only [compose_action, hdir, if_true]
  rw [run_command_none_eq _ _ _ _ hfail]
  constructor
  · rfl
  · simp [log]

/- ### Phase 3: membership in the ghost started list -/

theorem phase3_fold_mem (env : Env) (l : List String) :
    ∀ (acc : RunState × List String) (p : String),
      p ∈ (l.foldl (fun acc p =>
        ((compose_action env acc.1 p "up").1,
          if env.isDir p then acc.2 ++ [p] else acc.2)) acc).2 →
      p ∈ acc.2 ∨ (p ∈ l ∧ env.isDir p = true) := by
  induction l with
  | nil => intro acc p hp; exact Or.inl hp
  | cons q qs ih =>
    intro acc p hp
    rw [List.foldl_cons] at hp
    rcases ih _ p hp with h | ⟨h1, h2⟩
    · dsimp only at h
      by_cases hq : env.isDir q = true
      · rw [if_pos hq] at h
        rcases List.mem_append.mp h with h | h
        · exact Or.inl h
        · have hpq : p = q := by simpa using h
          subst hpq
          exact Or.inr ⟨List.mem_cons_self p qs, hq⟩
      · rw [if_neg hq] at h
        exact Or.inl h
    · exact Or.inr ⟨List.mem_cons_of_mem _ h1, h2⟩

theorem phase3_fold_cmd (env : Env) (l : List String) :
    ∀ (acc : RunState × List String) (p : String),
      p ∈ (l.foldl (fun acc p =>
        ((compose_action env acc.1 p "up").1,
          if env.isDir p then acc.2 ++ [p] else acc.2)) acc).2 →
      p ∈ acc.2 ∨ composeCmd env p "up" ∈ (l.foldl (fun acc p =>
        ((compose_action env acc.1 p "up").1,
          if env.isDir p then acc.2 ++ [p] else acc.2)) acc).1.cmds := by
  induction l with
  | nil => intro acc p hp; exact Or.inl hp
  | cons q qs ih =>
    intro acc p hp
    rw [List.foldl_cons] at hp ⊢
    rcases ih _ p hp with h | h
    · dsimp only at h
      by_cases hq : env.isDir q = true
      · rw [if_pos hq] at h
        rcases List.mem_append.mp h with h | h
        · exact Or.inl h
        · have hpq : p = q := by simpa using h
          subst hpq
          refine Or.inr (Extends.mem_cmds (extends_foldl_pair _ ?_ qs _) ?_)
          · intro a x
            exact extends_compose_action env a.1 x "up"
          · dsimp only
            rw [compose_action_cmds env acc.1 p "up" hq]
            simp
      · rw [if_neg hq] at h
        exact Or.inl h
    · exact Or.inr h

theorem startedStacks_mem (env : Env) (p : String)
    (hp : p ∈ (mainRun env).startedStacks) :
    p ∈ (stageStop env).2 ∧ env.isDir p = true := by
  have hp' : p ∈ (phase3 env
      (log (stageArch env)
        "Phase 3: Starting all successfully stopped Docker Compose stacks.")
      (stageStop env).2).2 := hp
  simp only [phase3] at hp'
  rcases phase3_fold_mem env (stageStop env).2 _ p hp' with h | h
  · simp at h
  · exact h

theorem startedStacks_cmd (env : Env) (p : String)
    (hp : p ∈ (mainRun env).startedStacks) :
    composeCmd env p "up" ∈ (mainRun env).state.cmds := by
  have hp' : p ∈ (phase3 env
      (log (stageArch env)
        "Phase 3: Starting all successfully stopped Docker Compose stacks.")
      (stageStop env).2).2 := hp
  simp only [phase3] at hp'
  rcases phase3_fold_cmd env (stageStop env).2 _ p hp' with h | h
  · simp at h
  · exact Extends.mem_cmds
      (Extends.trans (extends_start_clean env) (Extends.trans
        (extends_clean_disk env) (extends_disk_final env))) h

/-- C1: For every run, the set of stacks for which a start ('up') action is
issued in phase 3 is a subset of the set of stacks whose stop attempt in
phase 1 returned success (including the vacuous success for an absent
directory); no stack is started whose stop attempt did not succeed.
`startedStacks` is the ghost list of stack paths for which the phase-3 loop
actually issued an `up` command — witnessed here by that command's presence
in the CommandRunner trace — and `stoppedStacks` is
`successfully_stopped_stacks` of lines 358-362. -/
theorem c1_started_subset_stopped (env : Env) (p : String)
    (hp : p ∈ (mainRun env).startedStacks) :
    p ∈ (mainRun env).stoppedStacks
    ∧ composeCmd env p "up" ∈ (mainRun env).state.cmds :=
  ⟨(startedStacks_mem env p hp).1, startedStacks_cmd env p hp⟩

/- ### Phase 1: the missing-directory warning is logged -/

theorem phase1_fold_warn (env : Env) (p : String) (hd : env.isDir p = false) :
    ∀ (l : List String) (acc : RunState × List String), p ∈ l →
      LogEntry.entry "WARNING"
        ("Stack directory not found at " ++ p ++ ". Skipping " ++ "down" ++ ".") ∈
      (l.foldl (fun acc q =>
        ((compose_action env acc.1 q "down").1,
          if (compose_action env acc.1 q "down").2 then acc.2 ++ [q] else acc.2))
        acc).1.logMessages := by
  intro l
  induction l with
  | nil => intro acc hp; exact absurd hp (List.not_mem_nil p)
  | cons q qs ih =>
    intro acc hp
    rw [List.foldl_cons]
    rcases List.mem_cons.mp hp with hpq | hpqs
    · subst hpq
      refine Extends.mem_log (extends_foldl_pair _ ?_ qs _) ?_
      · intro a x
        exact extends_compose_action env a.1 x "down"
      · dsimp only
        rw [compose_action_absent env acc.1 p "down" hd]
        simp [log]
    · exact ih _ hpqs

theorem phase1_warn (env : Env) (st : RunState) (p : String)
    (hp : p ∈ allStacksList) (hd : env.isDir p = false) :
    LogEntry.entry "WARNING"
      ("Stack directory not found at " ++ p ++ ". Skipping " ++ "down" ++ ".") ∈
      (phase1 env st).1.logMessages := by
  simp only [phase1]
  exact phase1_fold_warn env p hd allStacksList (st, []) hp

/- ### Phase 2: every configured stack's tar command is handed to the runner -/

theorem phase2_fold_mem (env : Env) (hts : wsFree env.timestamp) :
    ∀ (l : List String) (st : RunState) (s : String), s ∈ l →
      (∀ x ∈ l, wsFree x ∧ x.data ≠ [] ∧ BASE_DIR ++ "/" ++ x ≠ EXTRA_STACK_PATH) →
      tarCmdOf env s ∈
        (l.foldl (fun st s =>
          (create_archive env st s BASE_DIR (BASE_DIR ++ "/" ++ s)).1) st).cmds := by
  intro l
  induction l with
  | nil => intro st s hs _; exact absurd hs (List.not_mem_nil s)
  | cons q qs ih =>
    intro st s hs hall
    rw [List.foldl_cons]
    rcases List.mem_cons.mp hs with hsq | hsqs
    · subst hsq
      obtain ⟨hsp, hs0, hne⟩ := hall s (List.mem_cons_self s qs)
      have hname : archiveName s (BASE_DIR ++ "/" ++ s) = s := if_neg hne
      have hroot : archiveRootDir BASE_DIR (BASE_DIR ++ "/" ++ s) = BASE_DIR :=
        if_neg hne
      refine Extends.mem_cmds
        (extends_foldl_state _ (fun st x =>
          extends_create_archive env st x BASE_DIR (BASE_DIR ++ "/" ++ x)) qs _) ?_
      rw [create_archive_cmds env st s BASE_DIR (BASE_DIR ++ "/" ++ s)
        (hname ▸ hsp) (hname ▸ hs0) (hroot ▸ (by decide : wsFree BASE_DIR))
        (hroot ▸ (by decide : BASE_DIR.data ≠ [])) hts]
      rw [hname, hroot]
      simp [tarCmdOf]
    · exact ih _ s hsqs (fun x hx => hall x (List.mem_cons_of_mem q hx))

theorem phase2_tar_mem (env : Env) (st : RunState)
    (hts : wsFree env.timestamp) (s : String) (hs : s ∈ STACKS) :
    tarCmdOf env s ∈ (phase2 env st).cmds := by
  simp only [phase2]
  refine Extends.mem_cmds (extends_create_archive env _ _ _ _) ?_
  refine phase2_fold_mem env hts STACKS st s hs ?_
  decide

/- ### Phase 2: a failing tar command marks the run failed for good -/

theorem phase2_fold_flag_false (env : Env) (hts : wsFree env.timestamp) :
    ∀ (l : List String) (st : RunState) (s : String), s ∈ l →
      (∀ x ∈ l, wsFree x ∧ x.data ≠ [] ∧ BASE_DIR ++ "/" ++ x ≠ EXTRA_STACK_PATH) →
      env.cmdResult (tarCmdOf env s) = none →
      (l.foldl (fun st s =>
        (create_archive env st s BASE_DIR (BASE_DIR ++ "/" ++ s)).1) st).backupSuccessful
        = false := by
  intro l
  induction l with
  | nil => intro st s hs _ _; exact absurd hs (List.not_mem_nil s)
  | cons q qs ih =>
    intro st s hs hall hfail
    rw [List.foldl_cons]
    rcases List.mem_cons.mp hs with hsq | hsqs
    · subst hsq
      obtain ⟨hsp, hs0, hne⟩ := hall s (List.mem_cons_self s qs)
      have hname : archiveName s (BASE_DIR ++ "/" ++ s) = s := if_neg hne
      have hroot : archiveRootDir BASE_DIR (BASE_DIR ++ "/" ++ s) = BASE_DIR :=
        if_neg hne
      refine Extends.flag_false
        (extends_foldl_state _ (fun st x =>
          extends_create_archive env st x BASE_DIR (BASE_DIR ++ "/" ++ x)) qs _) ?_
      have hfail' : env.cmdResult ["tar", "-c", "-f",
          targetFilename env (archiveName s (BASE_DIR ++ "/" ++ s)), "-C",
          archiveRootDir BASE_DIR (BASE_DIR ++ "/" ++ s),
          archiveName s (BASE_DIR ++ "/" ++ s)] = none := by
        rw [hname, hroot]
        exact hfail
      exact (create_archive_fail env st s BASE_DIR (BASE_DIR ++ "/" ++ s)
        (hname ▸ hsp) (hname ▸ hs0) (hroot ▸ (by decide : wsFree BASE_DIR))
        (hroot ▸ (by decide : BASE_DIR.data ≠ [])) hts hfail').2.2.1
    · exact ih _ s hsqs (fun x hx => hall x (List.mem_cons_of_mem q hx)) hfail

theorem phase2_flag_false (env : Env) (st : RunState)
    (hts : wsFree env.timestamp) (s : String) (hs : s ∈ STACKS)
    (hfail : env.cmdResult (tarCmdOf env s) = none) :
    (phase2 env st).backupSuccessful = false := by
  simp only [phase2]
  refine Extends.flag_false (extends_create_archive env _ _ _ _) ?_
  refine phase2_fold_flag_false env hts STACKS st s hs ?_ hfail
  decide

/-- C1 witness: in the fully healthy run, `stack1` is started, and by
`c1_started_subset_stopped` it is among the successfully stopped stacks. -/
theorem c1_started_subset_stopped_witness :
    "/opt/stacks/stack1" ∈ (mainRun envAllOk).startedStacks ∧
    ("/opt/stacks/stack1" ∈ (mainRun envAllOk).stoppedStacks ∧
      composeCmd envAllOk "/opt/stacks/stack1" "up" ∈
        (mainRun envAllOk).state.cmds) :=
  ⟨by decide, c1_started_subset_stopped envAllOk "/opt/stacks/stack1" (by decide)⟩

/-- C3 counterexample: in the run `envScenarioB` — exactly one configured
stack directory (`stack2`) is absent and every other operation succeeds
(the absent stack's own tar command fails, as `tar` does on a missing
source) — the claim fails: the overall status is FAILURE with exit code 1,
and the archive phase still issued the tar command for the absent stack
rather than excluding it. -/
theorem c3_counterexample :
    (mainRun envScenarioB).exitCode = 1
    ∧ statusOf (mainRun envScenarioB).state = "FAILURE"
    ∧ tarCmdOf envScenarioB "stack2" ∈ (mainRun envScenarioB).state.cmds := by
  refine ⟨by decide, by decide, by decide⟩

/-- C3 amended: in a run where one configured stack's directory is absent
and all other operations succeed, the stack produces a warning and no start
(`up`) action is issued for it, but the archive phase still attempts it: its
tar command is handed to the runner, and since tar fails on the missing
source directory an ERROR is logged, so the overall status is FAILURE and
the exit code is 1 (the other stacks are still processed, phase 2 iterating
over all of them — `phase2_tar_mem`). -/
theorem c3_missing_dir_behavior (env : Env)
    (hts : wsFree env.timestamp)
    (hd : env.isDir (BASE_DIR ++ "/" ++ "stack2") = false)
    (hfail : env.cmdResult (tarCmdOf env "stack2") = none) :
    (LogEntry.entry "WARNING" ("Stack directory not found at " ++
        (BASE_DIR ++ "/" ++ "stack2") ++ ". Skipping " ++ "down" ++ ".") ∈
      (mainRun env).state.logMessages)
    ∧ (BASE_DIR ++ "/" ++ "stack2") ∉ (mainRun env).startedStacks
    ∧ tarCmdOf env "stack2" ∈ (mainRun env).state.cmds
    ∧ (mainRun env).state.backupSuccessful = false
    ∧ (mainRun env).exitCode = 1 := by
  have hstate : (mainRun env).state = stageFinal env := rfl
  have hflag : (stageFinal env).backupSuccessful = false :=
    Extends.flag_false (extends_arch_final env)
      (phase2_flag_false env _ hts "stack2" (by decide) hfail)
  refine ⟨?_, ?_, ?_, ?_, ?_⟩
  · rw [hstate]
    exact Extends.mem_log (extends_stop_final env)
      (phase1_warn env stage01 _ (by decide) hd)
  · intro hmem
    have hdir := (startedStacks_mem env _ hmem).2
    rw [hd] at hdir
    exact absurd hdir (by decide)
  · rw [hstate]
    exact Extends.mem_cmds (extends_arch_final env)
      (phase2_tar_mem env _ hts "stack2" (by decide))
  · rw [hstate]; exact hflag
  · have hexit : (mainRun env).exitCode =
        if (stageFinal env).backupSuccessful then 0 else 1 := rfl
    rw [hexit, hflag]
    rfl

/-- C3 witness: the amended behaviour at the concrete scenario environment. -/
theorem c3_missing_dir_behavior_witness :
    (BASE_DIR ++ "/" ++ "stack2") ∉ (mainRun envScenarioB).startedStacks
    ∧ (mainRun envScenarioB).exitCode = 1 :=
  ⟨(c3_missing_dir_behavior envScenarioB (by decide) (by decide)
      (by decide)).2.1,
   (c3_missing_dir_behavior envScenarioB (by decide) (by decide)
      (by decide)).2.2.2.2⟩

/- ### Retention cleanup characterization (C4) -/

theorem cleanup_fold_deleted (env : Env) (hrm : ∀ p, env.removeOk p = true) :
    ∀ (l : List String) (acc : RunState × Nat),
      (l.foldl (fun (acc : RunState × Nat) file_path =>
        if env.removeOk file_path then
          (log { acc.1 with deletedFiles := acc.1.deletedFiles ++ [file_path] }
            ("Deleted old backup: " ++ file_path), acc.2 + 1)
        else
          (log acc.1 ("Error deleting file " ++ file_path) "ERROR",
            acc.2)) acc).1.deletedFiles = acc.1.deletedFiles ++ l := by
  intro l
  induction l with
  | nil => intro acc; simp
  | cons x xs ih =>
    intro acc
    rw [List.foldl_cons, if_pos (hrm x)]
    rw [ih]
    simp [log]

theorem cleanup_deleted (env : Env) (st : RunState) (hfind : env.findOk = true)
    (hrm : ∀ p, env.removeOk p = true) :
    (cleanup_local_backups env st).deletedFiles =
      st.deletedFiles ++ (env.backupFiles.filter matchesRetention).map
        (fun f => f.path) := by
  simp only [cleanup_local_backups, hfind, if_true]
  rw [show ∀ (r : RunState) (m : String), (log r m).deletedFiles = r.deletedFiles
    from fun r m => rfl]
  rw [cleanup_fold_deleted env hrm]
  rfl

/-- C4: The retention sweep deletes exactly the files under the backup root
that carry the configured archive extension and whose modification age — in
whole elapsed days, the granularity `find -mtime` works at — is strictly
greater than `retentionDays` (a file exactly at the boundary is kept); in
particular an archive created earlier in the same run, being younger than
the threshold, is never deleted by that run's sweep. -/
theorem c4_retention_exact (env : Env) (st : RunState)
    (hfind : env.findOk = true) (hrm : ∀ p, env.removeOk p = true)
    (h0 : st.deletedFiles = [])
    (hnd : (env.backupFiles.map (fun f => f.path)).Nodup) :
    ((cleanup_local_backups env st).deletedFiles =
      (env.backupFiles.filter matchesRetention).map (fun f => f.path))
    ∧ (∀ f ∈ env.backupFiles,
        f.path ∈ (cleanup_local_backups env st).deletedFiles ↔
          (("." ++ TARGET_EXT).data.isSuffixOf f.path.data = true ∧
            DAILY_RETENTION_DAYS < f.ageSeconds / 86400))
    ∧ (∀ f ∈ env.backupFiles, f.ageSeconds / 86400 = DAILY_RETENTION_DAYS →
        f.path ∉ (cleanup_local_backups env st).deletedFiles)
    ∧ (∀ f ∈ env.backupFiles, f.ageSeconds ≤ 86400 * DAILY_RETENTION_DAYS →
        f.path ∉ (cleanup_local_backups env st).deletedFiles) := by
  have hdel : (cleanup_local_backups env st).deletedFiles =
      (env.backupFiles.filter matchesRetention).map (fun f => f.path) := by
    rw [cleanup_deleted env st hfind hrm, h0]
    rfl
  have hmem : ∀ f ∈ env.backupFiles,
      (f.path ∈ (cleanup_local_backups env st).deletedFiles ↔
        matchesRetention f = true) := by
    intro f hf
    rw [hdel]
    constructor
    · intro hp
      rcases List.mem_map.mp hp with ⟨g, hg, hpath⟩
      have hgm := List.mem_filter.mp hg
      have hgf : g = f := List.inj_on_of_nodup_map hnd hgm.1 hf hpath
      rw [← hgf]
      exact hgm.2
    · intro hm
      exact List.mem_map.mpr ⟨f, List.mem_filter.mpr ⟨hf, hm⟩, rfl⟩
  refine ⟨hdel, ?_, ?_, ?_⟩
  · intro f hf
    rw [hmem f hf]
    simp [matchesRetention, Bool.and_eq_true]
  · intro f hf heq hin
    have := ((hmem f hf).mp hin)
    simp [matchesRetention, Bool.and_eq_true, heq] at this
  · intro f hf hage hin
    have hm := (hmem f hf).mp hin
    simp only [matchesRetention, Bool.and_eq_true, decide_eq_true_eq] at hm
    have hdiv : f.ageSeconds / 86400 ≤ DAILY_RETENTION_DAYS := by
      have h1 : f.ageSeconds / 86400 ≤ (86400 * DAILY_RETENTION_DAYS) / 86400 :=
        Nat.div_le_div_right hage
      have h2 : (86400 * DAILY_RETENTION_DAYS) / 86400 = DAILY_RETENTION_DAYS := by
        decide
      omega
    omega

/-- C4 witness: on the concrete backup root `envRetention.backupFiles`
(three expired archives, one boundary archive, one fresh archive, one
old non-tar file), exactly the three expired archives are recorded. -/
theorem c4_retention_exact_witness :
    (cleanup_local_backups envRetention initState).deletedFiles =
      ["/var/backups/docker/stack1/stack1_a.tar",
       "/var/backups/docker/stack1/stack1_b.tar",
       "/var/backups/docker/stack2/stack2_a.tar"] := by
  rw [(c4_retention_exact envRetention initState rfl (fun p => rfl) rfl
    (by decide)).1]
  decide

theorem phase2_extra_mem (env : Env) (st : RunState)
    (hts : wsFree env.timestamp) :
    tarCmdExtra env ∈ (phase2 env st).cmds := by
  simp only [phase2]
  rw [create_archive_cmds env _ (basename EXTRA_STACK_PATH)
    (dirname EXTRA_STACK_PATH) EXTRA_STACK_PATH (by decide) (by decide)
    (by decide) (by decide) hts]
  simp [tarCmdExtra]
  exact Or.inr ⟨rfl, rfl, rfl⟩

/-- C5: For every stack whose archive command fails, an ERROR is logged (so
the run's status becomes FAILURE — for the whole run this is
`backupSuccessful = false` at exit), nothing is appended to the new-archive
list for that stack, the archive operation returns failure, and the archive
phase still processes every subsequent stack: the tar command of every
configured stack, and of the extra stack, is handed to the command runner. -/
theorem c5_archive_failure (env : Env) (st : RunState)
    (hts : wsFree env.timestamp) (s : String) (hs : s ∈ STACKS)
    (hfail : env.cmdResult (tarCmdOf env s) = none) :
    ((create_archive env st s BASE_DIR (BASE_DIR ++ "/" ++ s)).2 = false
    ∧ (create_archive env st s BASE_DIR (BASE_DIR ++ "/" ++ s)).1.newArchives
        = st.newArchives
    ∧ (create_archive env st s BASE_DIR
        (BASE_DIR ++ "/" ++ s)).1.backupSuccessful = false
    ∧ LogEntry.entry "ERROR" ("Failed: " ++ ("Archiving " ++ s)) ∈
        (create_archive env st s BASE_DIR (BASE_DIR ++ "/" ++ s)).1.logMessages)
    ∧ (mainRun env).state.backupSuccessful = false
    ∧ (∀ s2 ∈ STACKS, tarCmdOf env s2 ∈ (phase2 env st).cmds)
    ∧ tarCmdExtra env ∈ (phase2 env st).cmds := by
  have hprops : wsFree s ∧ s.data ≠ [] ∧
      BASE_DIR ++ "/" ++ s ≠ EXTRA_STACK_PATH := by
    revert hs
    have : ∀ x ∈ STACKS, wsFree x ∧ x.data ≠ [] ∧
        BASE_DIR ++ "/" ++ x ≠ EXTRA_STACK_PATH := by decide
    exact this s
  obtain ⟨hsp, hs0, hne⟩ := hprops
  have hname : archiveName s (BASE_DIR ++ "/" ++ s) = s := if_neg hne
  have hroot : archiveRootDir BASE_DIR (BASE_DIR ++ "/" ++ s) = BASE_DIR :=
    if_neg hne
  have hfail' : env.cmdResult ["tar", "-c", "-f",
      targetFilename env (archiveName s (BASE_DIR ++ "/" ++ s)), "-C",
      archiveRootDir BASE_DIR (BASE_DIR ++ "/" ++ s),
      archiveName s (BASE_DIR ++ "/" ++ s)] = none := by
    rw [hname, hroot]
    exact hfail
  have hca := create_archive_fail env st s BASE_DIR (BASE_DIR ++ "/" ++ s)
    (hname ▸ hsp) (hname ▸ hs0) (hroot ▸ (by decide : wsFree BASE_DIR))
    (hroot ▸ (by decide : BASE_DIR.data ≠ [])) hts hfail'
  refine ⟨⟨hca.1, hca.2.1, hca.2.2.1, ?_⟩, ?_, ?_, ?_⟩
  · have := hca.2.2.2
    rw [hname] at this
    exact this
  · exact Extends.flag_false (extends_arch_final env)
      (phase2_flag_false env _ hts s hs hfail)
  · intro s2 hs2
    exact phase2_tar_mem env st hts s2 hs2
  · exact phase2_extra_mem env st hts

/-- C5 witness: the theorem at the concrete environment where `stack3`'s tar
command fails. -/
theorem c5_archive_failure_witness :
    (create_archive envTarFail initState "stack3" BASE_DIR
      (BASE_DIR ++ "/" ++ "stack3")).2 = false
    ∧ (mainRun envTarFail).state.backupSuccessful = false :=
  ⟨(c5_archive_failure envTarFail initState (by decide) "stack3" (by decide)
      (by decide)).1.1,
   (c5_archive_failure envTarFail initState (by decide) "stack3" (by decide)
      (by decide)).2.1⟩

/- ### Disk-usage probe behaviour (C6) -/

theorem gdu_cmd_fail (env : Env) (st : RunState)
    (h : env.cmdResult dfCmd = none) :
    (get_disk_usage env st).2 = none
    ∧ (get_disk_usage env st).1.backupSuccessful = false := by
  have hrc := run_command_none_eq env st dfCmd "Checking disk usage" h
  simp only [get_disk_usage, hrc]
  exact ⟨trivial, by simp [log]⟩

theorem gdu_parse_fail (env : Env) (st : RunState) (out : String)
    (h : env.cmdResult dfCmd = some out) (hp : parseDf (pyStrip out) = none) :
    (get_disk_usage env st).2 = none
    ∧ (get_disk_usage env st).1.backupSuccessful = st.backupSuccessful
    ∧ LogEntry.entry "WARNING" "Could not parse disk usage data." ∈
        (get_disk_usage env st).1.logMessages := by
  have hrc := run_command_some_eq env st dfCmd "Checking disk usage" out h
  simp only [get_disk_usage, hrc, hp]
  refine ⟨trivial, by simp [log], by simp [log]⟩

/-- C6 counterexample: the claim says a failure of the disk-usage probe is
logged as a warning only and never makes the run FAIL on its own.  In
`envDfFail` every operation succeeds except the `df` command itself, yet the
run exits 1; the identical environment with `df` succeeding (`envAllOk`)
exits 0, so the measurement failure alone flipped the status. -/
theorem c6_counterexample :
    (mainRun envDfFail).exitCode = 1 ∧ (mainRun envAllOk).exitCode = 0 :=
  ⟨by decide, by decide⟩

/-- C6 amended: a *parse* failure of the disk-usage probe is logged as a
WARNING only, leaves the success flag unchanged, and the report renders the
"not available" placeholder; but an *execution* failure of the `df` command
is logged as an ERROR by `run_command` and marks the run failed.  (The
archive-size measurement failure is silent and non-fatal: see
`c10_size_failure_zero`.) -/
theorem c6_measurement_behavior (env : Env) (st : RunState) :
    (∀ out, env.cmdResult dfCmd = some out → parseDf (pyStrip out) = none →
      (get_disk_usage env st).2 = none
      ∧ (get_disk_usage env st).1.backupSuccessful = st.backupSuccessful
      ∧ LogEntry.entry "WARNING" "Could not parse disk usage data." ∈
          (get_disk_usage env st).1.logMessages)
    ∧ (env.cmdResult dfCmd = none →
      (get_disk_usage env st).2 = none
      ∧ (get_disk_usage env st).1.backupSuccessful = false)
    ∧ diskSummaryOf none =
        "DISK USAGE CHECK:\n- Disk usage information not available.\n" := by
  refine ⟨?_, ?_, rfl⟩
  · intro out h hp
    exact gdu_parse_fail env st out h hp
  · intro h
    exact gdu_cmd_fail env st h

/-- C6 witness: at the environment with unparseable `df` output, the probe
returns nothing and the success flag is untouched. -/
theorem c6_measurement_behavior_witness :
    (get_disk_usage envDfBad initState).2 = none
    ∧ (get_disk_usage envDfBad initState).1.backupSuccessful = true :=
  ⟨((c6_measurement_behavior envDfBad initState).1 "garbage" (by decide)
      (by decide)).1,
   ((c6_measurement_behavior envDfBad initState).1 "garbage" (by decide)
      (by decide)).2.1⟩

/-- C7: In the composed report, the archive table's entries are sorted
lexicographically by absolute path (they are a permutation of the run's
archive list sorted by `path` under code-point order, exactly Python's string
order), and the rendered total is the human formatting of the exact integer
sum of the per-entry byte sizes — computed from byte counts, independent of
any rounding inside the per-entry human-readable strings, which the total
never reads. -/
theorem c7_report_sorted_total (env : Env) (st : RunState)
    (disk : Option DiskInfo) :
    List.Sorted (fun a b => strLe a.path b.path = true)
      (compose_report env st disk).archivesSorted
    ∧ (compose_report env st disk).archivesSorted.Perm st.newArchives
    ∧ (compose_report env st disk).totalBytes =
        (st.newArchives.map (fun a => a.sizeBytes)).sum
    ∧ (compose_report env st disk).totalHuman =
        format_bytes ((st.newArchives.map (fun a => a.sizeBytes)).sum) := by
  have hsorted : (compose_report env st disk).archivesSorted =
      sortArchives st.newArchives := rfl
  have hperm : (sortArchives st.newArchives).Perm st.newArchives :=
    List.perm_insertionSort _ _
  have hsum : ((sortArchives st.newArchives).map (fun a => a.sizeBytes)).sum =
      (st.newArchives.map (fun a => a.sizeBytes)).sum :=
    (hperm.map _).sum_eq
  have htb : (compose_report env st disk).totalBytes =
      ((sortArchives st.newArchives).map (fun a => a.sizeBytes)).sum := rfl
  have hth : (compose_report env st disk).totalHuman =
      format_bytes (((sortArchives st.newArchives).map
        (fun a => a.sizeBytes)).sum) := rfl
  refine ⟨?_, ?_, ?_, ?_⟩
  · rw [hsorted]
    exact List.sorted_insertionSort _ _
  · rw [hsorted]
    exact hperm
  · rw [htb, hsum]
  · rw [hth, hsum]

/- ### send_email_notification frame lemmas (C8) -/

theorem send_email_newArchives (env : Env) (st : RunState)
    (disk : Option DiskInfo) :
    (send_email_notification env st disk).newArchives =
      sortArchives st.newArchives := by
  simp only [send_email_notification]
  split <;> rfl

theorem send_email_deletedFiles (env : Env) (st : RunState)
    (disk : Option DiskInfo) :
    (send_email_notification env st disk).deletedFiles =
      (if st.deletedFiles.isEmpty then st.deletedFiles
        else sortStrings st.deletedFiles) := by
  simp only [send_email_notification]
  split <;> rfl

theorem send_email_cmds (env : Env) (st : RunState) (disk : Option DiskInfo) :
    (send_email_notification env st disk).cmds = st.cmds := by
  simp only [send_email_notification]
  split <;> rfl

theorem stageDisk_smtp (env : Env) (b : Bool) :
    stageDisk { env with smtpOk := b } = stageDisk env := rfl

theorem stageStop_smtp (env : Env) (b : Bool) :
    stageStop { env with smtpOk := b } = stageStop env := rfl

theorem stageStart_smtp (env : Env) (b : Bool) :
    stageStart { env with smtpOk := b } = stageStart env := rfl

/-- C8: If notification delivery fails, the failure is logged but never
escalated beyond the log record into the orchestration results: whatever the
delivery outcome, the archive list, the deleted-file list, the command trace,
the composed report (whose status was derived before the send), and the
per-stack stop/start results of the surrounding run are identical, and the
delivery step itself only appends log entries — it cannot undo or hide a
prior backup success. -/
theorem c8_delivery_frame (env : Env) (st : RunState) (disk : Option DiskInfo)
    (b1 b2 : Bool) :
    ((send_email_notification { env with smtpOk := b1 } st disk).newArchives =
      (send_email_notification { env with smtpOk := b2 } st disk).newArchives)
    ∧ ((send_email_notification { env with smtpOk := b1 } st disk).deletedFiles =
      (send_email_notification { env with smtpOk := b2 } st disk).deletedFiles)
    ∧ ((send_email_notification { env with smtpOk := b1 } st disk).cmds =
      (send_email_notification { env with smtpOk := b2 } st disk).cmds)
    ∧ (compose_report { env with smtpOk := b1 } st disk =
        compose_report { env with smtpOk := b2 } st disk)
    ∧ ((send_email_notification { env with smtpOk := b1 } st
        disk).newArchives.Perm st.newArchives)
    ∧ ((mainRun { env with smtpOk := b1 }).stoppedStacks =
        (mainRun { env with smtpOk := b2 }).stoppedStacks)
    ∧ ((mainRun { env with smtpOk := b1 }).startedStacks =
        (mainRun { env with smtpOk := b2 }).startedStacks)
    ∧ ((mainRun { env with smtpOk := b1 }).state.newArchives =
        (mainRun { env with smtpOk := b2 }).state.newArchives)
    ∧ ((mainRun { env with smtpOk := b1 }).state.deletedFiles =
        (mainRun { env with smtpOk := b2 }).state.deletedFiles)
    ∧ (∃ l, (send_email_notification { env with smtpOk := false } st
        disk).logMessages = st.logMessages ++ l) := by
  refine ⟨?_, ?_, ?_, rfl, ?_, ?_, ?_, ?_, ?_, ?_⟩
  · rw [send_email_newArchives, send_email_newArchives]
  · rw [send_email_deletedFiles, send_email_deletedFiles]
  · rw [send_email_cmds, send_email_cmds]
  · rw [send_email_newArchives]
    exact List.perm_insertionSort _ _
  · rw [show (mainRun { env with smtpOk := b1 }).stoppedStacks =
        (stageStop { env with smtpOk := b1 }).2 from rfl,
      show (mainRun { env with smtpOk := b2 }).stoppedStacks =
        (stageStop { env with smtpOk := b2 }).2 from rfl,
      stageStop_smtp env b1, stageStop_smtp env b2]
  · rw [show (mainRun { env with smtpOk := b1 }).startedStacks =
        (stageStart { env with smtpOk := b1 }).2 from rfl,
      show (mainRun { env with smtpOk := b2 }).startedStacks =
        (stageStart { env with smtpOk := b2 }).2 from rfl,
      stageStart_smtp env b1, stageStart_smtp env b2]
  · show (stageFinal { env with smtpOk := b1 }).newArchives =
      (stageFinal { env with smtpOk := b2 }).newArchives
    simp only [stageFinal]
    rw [show ∀ (r : RunState) (m : String), (log r m).newArchives = r.newArchives
      from fun r m => rfl]
    rw [show ∀ (r : RunState) (m : String), (log r m).newArchives = r.newArchives
      from fun r m => rfl]
    rw [send_email_newArchives, send_email_newArchives, stageDisk_smtp env b1,
      stageDisk_smtp env b2]
  · show (stageFinal { env with smtpOk := b1 }).deletedFiles =
      (stageFinal { env with smtpOk := b2 }).deletedFiles
    simp only [stageFinal]
    rw [show ∀ (r : RunState) (m : String), (log r m).deletedFiles = r.deletedFiles
      from fun r m => rfl]
    rw [show ∀ (r : RunState) (m : String), (log r m).deletedFiles = r.deletedFiles
      from fun r m => rfl]
    rw [send_email_deletedFiles, send_email_deletedFiles, stageDisk_smtp env b1,
      stageDisk_smtp env b2]
  · obtain ⟨⟨l, hl, _⟩, _⟩ :=
      extends_send_email { env with smtpOk := false } st disk
    exact ⟨l, hl⟩

/-- C9: For every stack with an existing directory, the stop/start action
selects the compose descriptor by an ordered discovery over the two accepted
filenames in which the first existing match wins, preferring `compose.yaml`
over `docker-compose.yml` (line 73), and exactly that descriptor is used in
the single command issued.  When neither candidate exists the code still
names `docker-compose.yml`; the subsequent `docker compose -f` on the
nonexistent file fails (the hypothesis `env.cmdResult … = none` records this
behaviour of docker), so the action returns failure and the ERROR logged by
`run_command` marks the run failed — the "error if neither exists". -/
theorem c9_compose_discovery (env : Env) (st : RunState) (p : String)
    (hdir : env.isDir p = true) :
    (env.fileExists (p ++ "/compose.yaml") = true →
      composeFile env p = "compose.yaml")
    ∧ (env.fileExists (p ++ "/compose.yaml") = false →
      composeFile env p = "docker-compose.yml")
    ∧ (∀ a, (compose_action env st p a).1.cmds = st.cmds ++ [composeCmd env p a])
    ∧ (env.fileExists (p ++ "/compose.yaml") = false →
      env.fileExists (p ++ "/docker-compose.yml") = false →
      env.cmdResult (composeCmd env p "down") = none →
      (compose_action env st p "down").2 = false
      ∧ (compose_action env st p "down").1.backupSuccessful = false) := by
  refine ⟨?_, ?_, ?_, ?_⟩
  · intro h
    simp [composeFile, h]
  · intro h
    simp [composeFile, h]
  · intro a
    exact compose_action_cmds env st p a hdir
  · intro h1 h2 hfail
    exact compose_action_fail env st p "down" hdir hfail

/-- C9 witness: a stack directory holding neither candidate file selects
`docker-compose.yml` and the stop action fails. -/
theorem c9_compose_discovery_witness :
    composeFile envNoCompose "/opt/stacks/stack1" = "docker-compose.yml"
    ∧ (compose_action envNoCompose initState "/opt/stacks/stack1" "down").2
      = false :=
  ⟨(c9_compose_discovery envNoCompose initState "/opt/stacks/stack1"
      rfl).2.1 (by decide),
   ((c9_compose_discovery envNoCompose initState "/opt/stacks/stack1"
      rfl).2.2.2 (by decide) (by decide) (by decide)).1⟩

theorem create_archive_na (env : Env) (st : RunState) (n b p out : String)
    (han : wsFree (archiveName n p)) (han0 : (archiveName n p).data ≠ [])
    (har : wsFree (archiveRootDir b p)) (har0 : (archiveRootDir b p).data ≠ [])
    (hts : wsFree env.timestamp)
    (hok : env.cmdResult ["tar", "-c", "-f", targetFilename env (archiveName n p),
      "-C", archiveRootDir b p, archiveName n p] = some out)
    (hna : env.duOutput (targetFilename env (archiveName n p)) = none ∨
      env.getSize (targetFilename env (archiveName n p)) = none) :
    (create_archive env st n b p).2 = true
    ∧ (create_archive env st n b p).1.newArchives =
        st.newArchives ++ [⟨targetFilename env (archiveName n p), "N/A", 0⟩] := by
  rw [create_archive_run env st n b p han han0 har har0 hts,
    archiveRun_na_eq _ _ _ _ _ out hok hna,
    run_command_some_eq _ _ _ _ out hok]
  exact ⟨rfl, by simp [log]⟩

/-- C10 (implicit): when the size measurement of a successfully created
archive fails (`du` or `os.path.getsize` raises), the archive is still
appended to the new-archive list with human size "N/A" and a byte size of 0,
so that archive contributes zero to the report's total byte sum, and the
rendered total undercounts the actual on-disk size by however many bytes the
archive really occupies. -/
theorem c10_size_failure_zero (env : Env) (st : RunState) (s out : String)
    (hs : s ∈ STACKS) (hts : wsFree env.timestamp)
    (hok : env.cmdResult (tarCmdOf env s) = some out)
    (hna : env.duOutput (targetFilename env s) = none ∨
      env.getSize (targetFilename env s) = none) :
    (create_archive env st s BASE_DIR (BASE_DIR ++ "/" ++ s)).2 = true
    ∧ (create_archive env st s BASE_DIR (BASE_DIR ++ "/" ++ s)).1.newArchives =
        st.newArchives ++ [⟨targetFilename env s, "N/A", 0⟩]
    ∧ ((create_archive env st s BASE_DIR
        (BASE_DIR ++ "/" ++ s)).1.newArchives.map (fun a => a.sizeBytes)).sum =
        (st.newArchives.map (fun a => a.sizeBytes)).sum
    ∧ (∀ actual : Nat, 0 < actual →
        ((create_archive env st s BASE_DIR
          (BASE_DIR ++ "/" ++ s)).1.newArchives.map (fun a => a.sizeBytes)).sum <
        (st.newArchives.map (fun a => a.sizeBytes)).sum + actual) := by
  have hprops : wsFree s ∧ s.data ≠ [] ∧
      BASE_DIR ++ "/" ++ s ≠ EXTRA_STACK_PATH := by
    revert hs
    have : ∀ x ∈ STACKS, wsFree x ∧ x.data ≠ [] ∧
        BASE_DIR ++ "/" ++ x ≠ EXTRA_STACK_PATH := by decide
    exact this s
  obtain ⟨hsp, hs0, hne⟩ := hprops
  have hname : archiveName s (BASE_DIR ++ "/" ++ s) = s := if_neg hne
  have hroot : archiveRootDir BASE_DIR (BASE_DIR ++ "/" ++ s) = BASE_DIR :=
    if_neg hne
  have hok' : env.cmdResult ["tar", "-c", "-f",
      targetFilename env (archiveName s (BASE_DIR ++ "/" ++ s)), "-C",
      archiveRootDir BASE_DIR (BASE_DIR ++ "/" ++ s),
      archiveName s (BASE_DIR ++ "/" ++ s)] = some out := by
    rw [hname, hroot]
    exact hok
  have hna' : env.duOutput (targetFilename env
        (archiveName s (BASE_DIR ++ "/" ++ s))) = none ∨
      env.getSize (targetFilename env
        (archiveName s (BASE_DIR ++ "/" ++ s))) = none := by
    rw [hname]
    exact hna
  obtain ⟨h1, h2⟩ := create_archive_na env st s BASE_DIR (BASE_DIR ++ "/" ++ s)
    out (hname ▸ hsp) (hname ▸ hs0) (hroot ▸ (by decide : wsFree BASE_DIR))
    (hroot ▸ (by decide : BASE_DIR.data ≠ [])) hts hok' hna'
  rw [hname] at h2
  have h3 : ((create_archive env st s BASE_DIR
      (BASE_DIR ++ "/" ++ s)).1.newArchives.map (fun a => a.sizeBytes)).sum =
      (st.newArchives.map (fun a => a.sizeBytes)).sum := by
    rw [h2]
    simp
  refine ⟨h1, h2, h3, ?_⟩
  intro actual hpos
  rw [h3]
  omega

/-- C10 witness: with `du` failing for every file, the archive of `stack1`
is recorded with "N/A" and zero bytes. -/
theorem c10_size_failure_zero_witness :
    (create_archive envSizeFail initState "stack1" BASE_DIR
      (BASE_DIR ++ "/" ++ "stack1")).1.newArchives =
      [⟨targetFilename envSizeFail "stack1", "N/A", 0⟩] := by
  have h := c10_size_failure_zero envSizeFail initState "stack1" "" (by decide)
    (by decide) (by decide) (Or.inl rfl)
  rw [h.2.1]
  rfl
